import Mathlib

/-
  Verification development for the Legal_MAD multi-agent debate system.

  The definitions below are a shallow embedding of the Python sources:
    src/utils/api_client_experimental.py   (GroqClient, OpenRouterClient)
    src/agents/debater_experimental.py     (Debater)
    src/agents/judge_experimental.py       (Judge)
    src/experiments/run_mad_experimental.py (run_mad_mcq and variants)

  External collaborators are modeled as parameters:
    - the remote generation backend is a function from the attempt index to
      its outcome (the code treats it as an opaque, possibly failing call);
    - json.loads is a parameter parse : String -> Option JVal (stdlib);
    - random.choice is supplied an external index into the candidate list;
    - prompt construction (prompts_experimental.py) only shapes the text sent
      to the backend, so the oracle for each generate_json call already
      accounts for the prompt; where the prompt text itself matters
      (Debater._generate_with_validation) the oracle receives the prompt.
-/

namespace LegalMAD

/-- Shallow model of a parsed JSON value (the result of json.loads). -/
inductive JVal where
  | null : JVal
  | bool : Bool → JVal
  | num : Int → JVal
  | str : String → JVal
  | arr : List JVal → JVal
  | obj : List (String × JVal) → JVal

mutual

/-- Structural equality of parsed JSON values, modeling the Python ==
    comparison on data returned by json.loads.  (Python dict equality is
    order-insensitive; the ordered comparison here only differs on
    duplicate-free dicts in different key orders, a case no modeled code
    path compares.) -/
def jbeq : JVal → JVal → Bool
  | JVal.null, JVal.null => true
  | JVal.bool a, JVal.bool b => a == b
  | JVal.num a, JVal.num b => decide (a = b)
  | JVal.str a, JVal.str b => decide (a = b)
  | JVal.arr a, JVal.arr b => jbeqList a b
  | JVal.obj a, JVal.obj b => jbeqFields a b
  | _, _ => false

/-- Elementwise equality of JSON lists. -/
def jbeqList : List JVal → List JVal → Bool
  | [], [] => true
  | x :: xs, y :: ys => jbeq x y && jbeqList xs ys
  | _, _ => false

/-- Fieldwise equality of JSON objects. -/
def jbeqFields : List (String × JVal) → List (String × JVal) → Bool
  | [], [] => true
  | (k1, v1) :: xs, (k2, v2) :: ys => decide (k1 = k2) && jbeq v1 v2 && jbeqFields xs ys
  | _, _ => false

end

/-- Python truthiness of a parsed JSON value. -/
def pyTruthy : JVal → Bool
  | JVal.null => false
  | JVal.bool b => b
  | JVal.num n => decide (n ≠ 0)
  | JVal.str s => decide (s ≠ "")
  | JVal.arr l => !l.isEmpty
  | JVal.obj l => !l.isEmpty

/-- Dictionary lookup: the value bound to a key of a JSON object, if any. -/
def pyLookup : JVal → String → Option JVal
  | JVal.obj fields, k => (fields.find? (fun p => decide (p.1 = k))).map Prod.snd
  | _, _ => none

/-- Python dict.get with an explicit default. -/
def pyGetD (v : JVal) (k : String) (dflt : JVal) : JVal := (pyLookup v k).getD dflt

/-- Python dict.get with the implicit None default. -/
def pyGetN (v : JVal) (k : String) : JVal := pyGetD v k JVal.null

/-- Whether the second character list is an initial segment of the first. -/
def listStartsWith : List Char → List Char → Bool
  | _, [] => true
  | [], _ :: _ => false
  | a :: as, b :: bs => decide (a = b) && listStartsWith as bs

/-- Whether the second character list occurs contiguously in the first. -/
def listHasSub : List Char → List Char → Bool
  | [], pat => pat.isEmpty
  | a :: rest, pat => listStartsWith (a :: rest) pat || listHasSub rest pat

/-- Substring containment test on strings (the Python in operator). -/
def strContains (s pat : String) : Bool := listHasSub s.data pat.data

/-- ASCII lowercasing (the Python str.lower method). -/
def lowerStr (s : String) : String := String.mk (s.data.map Char.toLower)

/-- Whitespace stripping from both ends (the Python str.strip method). -/
def pyStrip (s : String) : String :=
  String.mk (((s.data.dropWhile Char.isWhitespace).reverse.dropWhile
    Char.isWhitespace).reverse)

/-- Python membership test x in y for the value shapes that appear here:
    key membership for dicts, element membership for lists, substring for
    strings.  Python raises TypeError on other shapes, which are outside the
    modeled domain. -/
def pyContains : JVal → String → Bool
  | JVal.obj fields, k => fields.any (fun p => decide (p.1 = k))
  | JVal.arr elems, k =>
      elems.any (fun e => match e with | JVal.str s => decide (s = k) | _ => false)
  | JVal.str s, k => strContains s k
  | _, _ => false

/-- Tests whether a value is one of the four valid multiple-choice letters,
    modeling the membership test against the list of the letters A to D. -/
def isChoiceLetter : JVal → Bool
  | JVal.str s => decide (s = "A" ∨ s = "B" ∨ s = "C" ∨ s = "D")
  | _ => false

/-- Underlying string of a string value (only used after a guard has
    established the value is a string). -/
def jstr : JVal → String
  | JVal.str s => s
  | _ => ""

/-- Tests whether a value is a dict. -/
def isDict : JVal → Bool
  | JVal.obj _ => true
  | _ => false

/-- Tests whether a value is a list. -/
def isList : JVal → Bool
  | JVal.arr _ => true
  | _ => false

/-- Tests whether a value is None. -/
def isNone : JVal → Bool
  | JVal.null => true
  | _ => false

/-- Tests whether a value is a non-blank string: isinstance(v, str) and
    v.strip() is truthy. -/
def nonBlankStr : JVal → Bool
  | JVal.str s => decide (pyStrip s ≠ "")
  | _ => false

/- ===================== Generation Gateway: GroqClient ===================== -/

/-- Retry configuration shared by both client classes (max_retries,
    retry_delay from the constructors). -/
structure RetryConfig where
  maxRetries : Nat
  retryDelay : ℚ

/-- Outcome of one remote chat-completions call: the returned text, or an
    exception whose str() is the given message. -/
inductive GenOutcome where
  | ok : String → GenOutcome
  | err : String → GenOutcome
deriving DecidableEq

/-- Observable event of a GroqClient.generate run: one backend attempt, or a
    time.sleep of the given duration. -/
inductive GenEvent where
  | call : Nat → GenEvent
  | sleep : ℚ → GenEvent
deriving DecidableEq

/-- Error raised by GroqClient.generate: the re-raised backend exception, or
    the final RuntimeError after the loop. -/
inductive GenErr where
  | backend : String → GenErr
  | maxRetriesExceeded : GenErr
deriving DecidableEq

/-- The str() of a GenErr, as seen by callers that inspect the message. -/
def genErrMsg : GenErr → String
  | GenErr.backend m => m
  | GenErr.maxRetriesExceeded => "Max retries exceeded"

/-- Rate-limit classification from GroqClient.generate: the lowercased
    exception text contains rate_limit or rate limit. -/
def isRateLimitError (msg : String) : Bool :=
  strContains (lowerStr msg) ("rate_limit") || strContains (lowerStr msg) ("rate limit")

/-- The retry loop of GroqClient.generate, starting at the given attempt
    index with the given remaining loop iterations (fuel).  At entry fuel =
    max_retries and attempt = 0; the loop preserves fuel + attempt =
    max_retries.  Mirrors api_client_experimental.py lines 92 to 113. -/
def groqGenFrom (cfg : RetryConfig) (backend : Nat → GenOutcome) :
    Nat → Nat → List GenEvent × Except GenErr String
  | _, 0 => ([], Except.error GenErr.maxRetriesExceeded)
  | attempt, fuel + 1 =>
    match backend attempt with
    | GenOutcome.ok text => ([GenEvent.call attempt], Except.ok text)
    | GenOutcome.err msg =>
      if isRateLimitError msg then
        if attempt < cfg.maxRetries - 1 then
          let rest := groqGenFrom cfg backend (attempt + 1) fuel
          (GenEvent.call attempt :: GenEvent.sleep (cfg.retryDelay * 2 ^ attempt) :: rest.1,
           rest.2)
        else ([GenEvent.call attempt], Except.error (GenErr.backend msg))
      else ([GenEvent.call attempt], Except.error (GenErr.backend msg))

/-- GroqClient.generate: runs the retry loop over range(max_retries). -/
def groqGenerate (cfg : RetryConfig) (backend : Nat → GenOutcome) :
    List GenEvent × Except GenErr String :=
  groqGenFrom cfg backend 0 cfg.maxRetries

/-- Number of backend attempts recorded in an event trace. -/
def callCount (events : List GenEvent) : Nat :=
  events.countP (fun e => match e with | GenEvent.call _ => true | _ => false)

theorem callCount_nil : callCount [] = 0 := rfl

theorem callCount_call (a : Nat) (es : List GenEvent) :
    callCount (GenEvent.call a :: es) = callCount es + 1 := by
  simp [callCount, List.countP_cons]

theorem callCount_sleep (q : ℚ) (es : List GenEvent) :
    callCount (GenEvent.sleep q :: es) = callCount es := by
  simp [callCount, List.countP_cons]

/-- The retry loop makes at most fuel backend attempts. -/
theorem groqGenFrom_calls_le (cfg : RetryConfig) (backend : Nat → GenOutcome) :
    ∀ fuel attempt, callCount (groqGenFrom cfg backend attempt fuel).1 ≤ fuel := by
  intro fuel
  induction fuel with
  | zero => intro attempt; simp [groqGenFrom, callCount_nil]
  | succ n ih =>
    intro attempt
    unfold groqGenFrom
    cases hb : backend attempt with
    | ok text => simp [callCount_call, callCount_nil]
    | err msg =>
      by_cases hrl : isRateLimitError msg = true
      · by_cases hlt : attempt < cfg.maxRetries - 1
        · simp only [hrl, hlt, if_true, callCount_call, callCount_sleep]
          exact Nat.add_le_add_right (ih (attempt + 1)) 1
        · simp [hrl, hlt, callCount_call, callCount_nil]
      · simp [hrl, callCount_call, callCount_nil]

/-- When every backend attempt fails with a rate-limit error, the loop
    terminates with an error. -/
theorem groqGenFrom_all_rl_err (cfg : RetryConfig) (backend : Nat → GenOutcome)
    (h : ∀ k, ∃ m, backend k = GenOutcome.err m ∧ isRateLimitError m = true) :
    ∀ fuel attempt, ∃ e, (groqGenFrom cfg backend attempt fuel).2 = Except.error e := by
  intro fuel
  induction fuel with
  | zero => intro attempt; exact ⟨GenErr.maxRetriesExceeded, rfl⟩
  | succ n ih =>
    intro attempt
    obtain ⟨m, hm, hrl⟩ := h attempt
    unfold groqGenFrom
    rw [hm]
    by_cases hlt : attempt < cfg.maxRetries - 1
    · simp only [hrl, hlt, if_true]
      exact ih (attempt + 1)
    · simp [hrl, hlt]

/-- The json_validate_failed / 400 classification of GroqClient.generate_json:
    when a JSON-mode call fails with this signal, one plain-text retry is
    attempted. -/
def isJsonModeFailure (msg : String) : Bool :=
  strContains (lowerStr msg) ("json_validate_failed") || strContains (lowerStr msg) ("400")

/-- Error raised by generate_json: a propagated generate error, or a
    json.JSONDecodeError on the given raw text. -/
inductive GjErr where
  | gen : GenErr → GjErr
  | parse : String → GjErr

/-- The full record of one GroqClient.generate_json invocation: the events
    of the JSON-mode generate run, the events of the plain-text fallback run
    (empty when no fallback happened), the raw text delivered for parsing
    (none when generation failed), and the final outcome. -/
structure GjRun where
  jsonEvents : List GenEvent
  plainEvents : List GenEvent
  text : Option String
  result : Except GjErr JVal

/-- GroqClient.generate_json (api_client_experimental.py lines 115 to 162):
    one generate call in JSON mode; on a json_validate_failed / 400 failure a
    single further generate call without JSON mode; then json.loads on the
    delivered text, propagating a parse failure.  The backend receives the
    mode flag (true for JSON mode) and the attempt index; parse stands for
    the external json.loads. -/
def groqGenerateJson (cfg : RetryConfig) (backend : Bool → Nat → GenOutcome)
    (parse : String → Option JVal) : GjRun :=
  let first := groqGenerate cfg (backend true)
  match first.2 with
  | Except.ok t =>
      { jsonEvents := first.1, plainEvents := [], text := some t,
        result := match parse t with
                  | some v => Except.ok v
                  | none => Except.error (GjErr.parse t) }
  | Except.error e =>
    if isJsonModeFailure (genErrMsg e) then
      let second := groqGenerate cfg (backend false)
      match second.2 with
      | Except.ok t =>
          { jsonEvents := first.1, plainEvents := second.1, text := some t,
            result := match parse t with
                      | some v => Except.ok v
                      | none => Except.error (GjErr.parse t) }
      | Except.error e2 =>
          { jsonEvents := first.1, plainEvents := second.1, text := none,
            result := Except.error (GjErr.gen e2) }
    else
      { jsonEvents := first.1, plainEvents := [], text := none,
        result := Except.error (GjErr.gen e) }

/- ===================== Generation Gateway: OpenRouterClient ===================== -/

/-- Outcome of one OpenRouter HTTP call: a delivered response with its HTTP
    status code and the already-extracted message value of choices[0], or a
    network-level request failure (requests.RequestException that is not an
    HTTPError). -/
inductive OrOutcome where
  | resp : Nat → JVal → OrOutcome
  | netErr : String → OrOutcome

/-- Observable event of an OpenRouterClient.generate run. -/
inductive OrEvent where
  | call : Nat → OrEvent
  | sleep : ℚ → OrEvent

/-- Error raised by OpenRouterClient.generate: an HTTPError carrying the
    status, a network error, or the final RuntimeError. -/
inductive OrErr where
  | http : Nat → OrErr
  | net : String → OrErr
  | maxRetriesExceeded : OrErr

/-- The single-quote character, used by the Python repr of strings. -/
def sq : String := (Char.ofNat 39).toString

mutual

/-- Python repr of a parsed JSON value (used by the str(message) fallback of
    OpenRouterClient.generate; string escaping is not reproduced). -/
def pyRepr : JVal → String
  | JVal.null => "None"
  | JVal.bool true => "True"
  | JVal.bool false => "False"
  | JVal.num n => toString n
  | JVal.str s => sq ++ s ++ sq
  | JVal.arr l => "[" ++ pyReprList l ++ "]"
  | JVal.obj l => "\x7b" ++ pyReprFields l ++ "\x7d"

/-- Comma-separated reprs of list elements. -/
def pyReprList : List JVal → String
  | [] => ""
  | [v] => pyRepr v
  | v :: rest => pyRepr v ++ ", " ++ pyReprList rest

/-- Comma-separated reprs of dict items. -/
def pyReprFields : List (String × JVal) → String
  | [] => ""
  | [(k, v)] => sq ++ k ++ sq ++ ": " ++ pyRepr v
  | (k, v) :: rest => sq ++ k ++ sq ++ ": " ++ pyRepr v ++ ", " ++ pyReprFields rest

end

/-- Python str of a parsed JSON value. -/
def pyStr : JVal → String
  | JVal.str s => s
  | v => pyRepr v

/-- Markdown code-fence stripping of OpenRouterClient.generate (lines 296
    to 307): applied when the content is a string whose stripped form starts
    with three backticks. -/
def stripFences (content : String) : String :=
  if listStartsWith (pyStrip content).data ("```").data then
    let c := (pyStrip content).data
    let c := if listStartsWith c ("```json").data then c.drop 7
             else if listStartsWith c ("```").data then c.drop 3
             else c
    let c := if listStartsWith c.reverse ("```").data.reverse then c.reverse.drop 3 |>.reverse
             else c
    pyStrip (String.mk c)
  else content

/-- Python x if x else an empty string. -/
def orEmptyStr (v : JVal) : JVal := if pyTruthy v then v else JVal.str ""

/-- Content extraction of OpenRouterClient.generate (lines 284 to 316),
    applied to the message value of a successful response. -/
def extractOrContent (message : JVal) : JVal :=
  match message with
  | JVal.obj _ =>
    if pyContains message ("content") then
      let content := pyGetN message ("content")
      match content with
      | JVal.obj _ =>
          if pyContains content ("content") then pyGetN content ("content")
          else orEmptyStr content
      | JVal.str s => JVal.str (stripFences s)
      | _ => orEmptyStr content
    else if pyContains message ("role") && jbeq (pyGetN message ("role")) (JVal.str ("assistant")) then
      pyGetD message ("content") (JVal.str "")
    else JVal.str (pyStr message)
  | _ => JVal.str (pyStr message)

/-- The retry loop of OpenRouterClient.generate (api_client_experimental.py
    lines 255 to 333), starting at the given attempt index with the given
    remaining iterations; at entry fuel = max_retries and attempt = 0.
    Status 429 and statuses of at least 500 are retried with exponential
    backoff, other statuses of at least 400 raise HTTPError immediately, and
    network-level failures are retried with the same backoff. -/
def orGenFrom (cfg : RetryConfig) (backend : Nat → OrOutcome) :
    Nat → Nat → List OrEvent × Except OrErr JVal
  | _, 0 => ([], Except.error OrErr.maxRetriesExceeded)
  | attempt, fuel + 1 =>
    match backend attempt with
    | OrOutcome.netErr msg =>
      if attempt < cfg.maxRetries - 1 then
        let rest := orGenFrom cfg backend (attempt + 1) fuel
        (OrEvent.call attempt :: OrEvent.sleep (cfg.retryDelay * 2 ^ attempt) :: rest.1,
         rest.2)
      else ([OrEvent.call attempt], Except.error (OrErr.net msg))
    | OrOutcome.resp status message =>
      if status = 429 ∨ 500 ≤ status then
        if attempt < cfg.maxRetries - 1 then
          let rest := orGenFrom cfg backend (attempt + 1) fuel
          (OrEvent.call attempt :: OrEvent.sleep (cfg.retryDelay * 2 ^ attempt) :: rest.1,
           rest.2)
        else ([OrEvent.call attempt], Except.error (OrErr.http status))
      else if 400 ≤ status then ([OrEvent.call attempt], Except.error (OrErr.http status))
      else ([OrEvent.call attempt], Except.ok (extractOrContent message))

/-- OpenRouterClient.generate: runs the retry loop over range(max_retries). -/
def orGenerate (cfg : RetryConfig) (backend : Nat → OrOutcome) :
    List OrEvent × Except OrErr JVal :=
  orGenFrom cfg backend 0 cfg.maxRetries

/- ===================== Debater agent ===================== -/

/-- Errors raised by the agents and the orchestrator (all ValueError in the
    source; the constructor records which raise site fired and its data).
    clientError is a propagated generate_json exception. -/
inductive MadError where
  | clientError : String → MadError
  | invalidDebaterResponse : JVal → MadError
  | invalidIracDebaterResponse : JVal → MadError
  | missingIracComponent : String → JVal → MadError
  | mustOpenFirst : MadError
  | invalidRebuttalResponse : JVal → MadError
  | invalidIracRebuttalResponse : JVal → MadError
  | missingRebuttalComponent : String → JVal → MadError
  | invalidPositionX : JVal → MadError
  | invalidJudgeResponse : JVal → MadError
  | invalidDecisionChoice : JVal → MadError
  | missingSynthesis : JVal → MadError
  | missingSynthesisComponent : String → JVal → MadError
  | decisionWinnerMismatch : JVal → String → JVal → MadError

/-- Mutable state of one Debater instance: self.position and
    self.opening_argument, both initialized to None. -/
structure DebaterState where
  position : JVal := JVal.null
  openingArgument : JVal := JVal.null

/-- Debater.generate_opening (debater_experimental.py lines 59 to 94).
    The assigned position parameter only shapes the prompt (built by
    get_debater_opening_prompt) and therefore the oracle response; it is
    not consulted by the validation.  The resp argument is the outcome of
    the generate_json call for that prompt.  Faithful for dict responses
    (Python subscripting would raise TypeError on other shapes). -/
def generateOpening (st : DebaterState) (assignedPosition : Option String)
    (resp : Except String JVal) : Except MadError (JVal × DebaterState) :=
  match resp with
  | Except.error m => Except.error (MadError.clientError m)
  | Except.ok r =>
    if pyContains r ("position") = false ∨ pyContains r ("argument") = false then
      Except.error (MadError.invalidDebaterResponse r)
    else
      Except.ok (r, { position := pyGetN r ("position"), openingArgument := r })

/-- Debater.generate_rebuttal (lines 96 to 130): raises unless an opening
    argument is stored, then validates presence of the rebuttal key. -/
def generateRebuttal (st : DebaterState) (resp : Except String JVal) :
    Except MadError JVal :=
  if pyTruthy st.openingArgument = false then Except.error MadError.mustOpenFirst
  else
    match resp with
    | Except.error m => Except.error (MadError.clientError m)
    | Except.ok r =>
      if pyContains r ("rebuttal") = false then
        Except.error (MadError.invalidRebuttalResponse r)
      else Except.ok r

/-- The four required IRAC component keys. -/
def iracKeys : List String := ["issue", "rule", "application", "conclusion"]

/-- Debater.generate_opening_irac (lines 134 to 178): validates presence of
    position and irac, then presence of each of the four IRAC keys inside
    response.get of irac, raising at the first missing key. -/
def generateOpeningIrac (st : DebaterState) (assignedPosition : Option String)
    (resp : Except String JVal) : Except MadError (JVal × DebaterState) :=
  match resp with
  | Except.error m => Except.error (MadError.clientError m)
  | Except.ok r =>
    if pyContains r ("position") = false ∨ pyContains r ("irac") = false then
      Except.error (MadError.invalidIracDebaterResponse r)
    else
      let irac := pyGetD r ("irac") (JVal.obj [])
      match iracKeys.find? (fun k => pyContains irac k = false) with
      | some k => Except.error (MadError.missingIracComponent k r)
      | none =>
          Except.ok (r, { position := pyGetN r ("position"), openingArgument := r })

/-- The four required IRAC rebuttal component keys. -/
def iracRebuttalKeys : List String :=
  ["issue_critique", "rule_critique", "application_critique", "my_reinforcement"]

/-- Debater.generate_rebuttal_irac (lines 180 to 223). -/
def generateRebuttalIrac (st : DebaterState) (resp : Except String JVal) :
    Except MadError JVal :=
  if pyTruthy st.openingArgument = false then Except.error MadError.mustOpenFirst
  else
    match resp with
    | Except.error m => Except.error (MadError.clientError m)
    | Except.ok r =>
      if pyContains r ("rebuttal") = false then
        Except.error (MadError.invalidIracRebuttalResponse r)
      else
        let rebuttal := pyGetD r ("rebuttal") (JVal.obj [])
        match iracRebuttalKeys.find? (fun k => pyContains rebuttal k = false) with
        | some k => Except.error (MadError.missingRebuttalComponent k r)
        | none => Except.ok r

/- ===================== The generate-with-validation helper ===================== -/

/-- Error raised by Debater._generate_with_validation after the loop: the
    re-raised last gateway exception, or the ValueError built from the error
    message and the last raw response. -/
inductive GwvErr where
  | gateway : String → GwvErr
  | invalid : String → Option JVal → GwvErr

/-- The loop of Debater._generate_with_validation (debater_experimental.py
    lines 26 to 57).  The oracle maps the attempt index and the prompt text
    actually sent to that generate_json outcome.  State threaded exactly as
    in the source: the prompt for the next attempt, the last exception and
    the last raw response.  A gateway exception is caught and the loop
    continues without modifying the prompt; a validation failure switches
    the prompt to the original plus the retry instruction.  Returns the list
    of prompts sent and the outcome. -/
def gwvGo (oracle : Nat → String → Except String JVal) (validator : JVal → Bool)
    (prompt retryInstruction errorMessage : String) :
    Nat → Nat → String → Option String → Option JVal →
    List String × Except GwvErr JVal
  | 0, _, _, lastExc, lastResp =>
    ([], match lastExc with
         | some m => Except.error (GwvErr.gateway m)
         | none => Except.error (GwvErr.invalid errorMessage lastResp))
  | n + 1, k, attemptPrompt, lastExc, lastResp =>
    match oracle k attemptPrompt with
    | Except.error m =>
      let rest := gwvGo oracle validator prompt retryInstruction errorMessage
        n (k + 1) attemptPrompt (some m) lastResp
      (attemptPrompt :: rest.1, rest.2)
    | Except.ok r =>
      if validator r then ([attemptPrompt], Except.ok r)
      else
        let rest := gwvGo oracle validator prompt retryInstruction errorMessage
          n (k + 1) (prompt ++ "\n\n" ++ retryInstruction) lastExc (some r)
        (attemptPrompt :: rest.1, rest.2)

/-- Debater._generate_with_validation: three loop iterations starting from
    the original prompt with no stored exception or response. -/
def generateWithValidation (oracle : Nat → String → Except String JVal)
    (validator : JVal → Bool) (prompt retryInstruction errorMessage : String) :
    List String × Except GwvErr JVal :=
  gwvGo oracle validator prompt retryInstruction errorMessage 3 0 prompt none none

/-- The nested _valid_irac_response validator of Debater.generate_opening_oab
    (debater_experimental.py lines 252 to 268): the response must be a dict
    whose irac entry is a dict binding each of the four IRAC keys to a
    non-blank string, whose full_answer is a non-blank string, and whose
    key_citations entry, unless None, is a list. -/
def validIracResponse (resp : JVal) : Bool :=
  if isDict resp = false then false
  else
    let irac := pyGetN resp ("irac")
    if isDict irac = false then false
    else if (iracKeys.all (fun k => nonBlankStr (pyGetN irac k))) = false then false
    else
      let fullAnswer := pyGetN resp ("full_answer")
      if nonBlankStr fullAnswer = false then false
      else
        let citations := pyGetD resp ("key_citations") (JVal.arr [])
        if isNone citations = false ∧ isList citations = false then false
        else true

/- ===================== Judge agent ===================== -/

/-- Judge.make_decision (judge_experimental.py lines 22 to 62): validates
    presence of the decision key and membership of its value in the four
    choice letters, then returns the response unchanged. -/
def makeDecision (resp : Except String JVal) : Except MadError JVal :=
  match resp with
  | Except.error m => Except.error (MadError.clientError m)
  | Except.ok r =>
    if pyContains r ("decision") = false then
      Except.error (MadError.invalidJudgeResponse r)
    else if isChoiceLetter (pyGetN r ("decision")) = false then
      Except.error (MadError.invalidDecisionChoice (pyGetN r ("decision")))
    else Except.ok r

/-- Judge.make_decision_irac (lines 66 to 118): the make_decision checks
    plus presence of synthesis and of each IRAC key inside it. -/
def makeDecisionIrac (resp : Except String JVal) : Except MadError JVal :=
  match resp with
  | Except.error m => Except.error (MadError.clientError m)
  | Except.ok r =>
    if pyContains r ("decision") = false then
      Except.error (MadError.invalidJudgeResponse r)
    else if isChoiceLetter (pyGetN r ("decision")) = false then
      Except.error (MadError.invalidDecisionChoice (pyGetN r ("decision")))
    else if pyContains r ("synthesis") = false then
      Except.error (MadError.missingSynthesis r)
    else
      let synthesis := pyGetD r ("synthesis") (JVal.obj [])
      match iracKeys.find? (fun k => pyContains synthesis k = false) with
      | some k => Except.error (MadError.missingSynthesisComponent k r)
      | none => Except.ok r

/-- The debate_history dict assembled by the orchestrator: one opening and
    one rebuttal per debater role. -/
structure DebateHistory where
  openingX : JVal
  rebuttalX : JVal
  openingY : JVal
  rebuttalY : JVal

/-- Judge.make_decision_hybrid (lines 120 to 176): the make_decision checks,
    then the winner-consistency check: if the response declares winner
    debater_x (or debater_y) and the decision differs from that debater
    opening position read from the history (with empty-string defaults on
    the get chain), a ValueError is raised. -/
def makeDecisionHybrid (history : DebateHistory) (resp : Except String JVal) :
    Except MadError JVal :=
  match resp with
  | Except.error m => Except.error (MadError.clientError m)
  | Except.ok r =>
    if pyContains r ("decision") = false then
      Except.error (MadError.invalidJudgeResponse r)
    else if isChoiceLetter (pyGetN r ("decision")) = false then
      Except.error (MadError.invalidDecisionChoice (pyGetN r ("decision")))
    else
      let winner := pyGetD r ("winner") (JVal.str "")
      let dxPos := pyGetD history.openingX ("position") (JVal.str "")
      let dyPos := pyGetD history.openingY ("position") (JVal.str "")
      if jbeq winner (JVal.str ("debater_x")) = true ∧ jbeq (pyGetN r ("decision")) dxPos = false then
        Except.error (MadError.decisionWinnerMismatch (pyGetN r ("decision")) "debater_x" dxPos)
      else if jbeq winner (JVal.str ("debater_y")) = true ∧ jbeq (pyGetN r ("decision")) dyPos = false then
        Except.error (MadError.decisionWinnerMismatch (pyGetN r ("decision")) "debater_y" dyPos)
      else Except.ok r

/- ===================== Debate orchestrator ===================== -/

/-- get_available_positions_for_debater_y (run_mad_experimental.py lines 54
    to 65): all positions except the one chosen by Debater X. -/
def getAvailablePositionsForDebaterY (positionX : String) : List String :=
  (["A", "B", "C", "D"]).filter (fun p => decide (p ≠ positionX))

/-- Models random.choice applied to a non-empty list: the randomness is
    supplied externally as an index, reduced modulo the length. -/
def pyRandomChoice (l : List String) (i : Nat) : String := l.getD (i % l.length) ""

/-- The position-extraction and assignment step shared by the three MCQ
    orchestrators (run_mad_experimental.py lines 101 to 108, 217 to 223 and
    337 to 343): read position from the X opening, raise unless it is a
    truthy valid choice letter, then pick Debater Y a random position among
    the remaining ones.  Returns the validated X position value and the Y
    assignment. -/
def choosePositions (openingX : JVal) (choiceIdx : Nat) :
    Except MadError (JVal × String) :=
  let posXv := pyGetN openingX ("position")
  if pyTruthy posXv = false ∨ isChoiceLetter posXv = false then
    Except.error (MadError.invalidPositionX posXv)
  else
    Except.ok (posXv,
      pyRandomChoice (getAvailablePositionsForDebaterY (jstr posXv)) choiceIdx)

/-- The result record compiled by the MCQ orchestrators: the
    position_assignment block, the two rounds of the debate block, and the
    judge block (question metadata passthroughs are omitted; gold is the
    gold answer they carry). -/
structure MadResult where
  posAssignX : JVal
  posAssignY : String
  strategy : String
  openingX : JVal
  openingY : JVal
  rebuttalX : JVal
  rebuttalY : JVal
  judgeRationale : JVal
  judgeWinner : JVal
  judgeDecision : JVal
  judgeSynthesis : JVal
  correct : Bool

/-- Builds the judge block of the result record from the validated decision
    response, with the synthesis default used by the given mode. -/
def buildResult (gold : String) (posXv : JVal) (posY : String) (strategy : String)
    (openingX openingY rebuttalX rebuttalY decision : JVal)
    (synthesisDefault : JVal) : MadResult :=
  { posAssignX := posXv
    posAssignY := posY
    strategy := strategy
    openingX := openingX
    openingY := openingY
    rebuttalX := rebuttalX
    rebuttalY := rebuttalY
    judgeRationale := pyGetD decision ("rationale") (JVal.str "")
    judgeWinner := pyGetD decision ("winner") (JVal.str "unknown")
    judgeDecision := pyGetN decision ("decision")
    judgeSynthesis := pyGetD decision ("synthesis") synthesisDefault
    correct := jbeq (pyGetN decision ("decision")) (JVal.str gold) }

/-- run_mad_mcq (run_mad_experimental.py lines 68 to 182).  The oracle maps
    the index of each generate_json call of the debate (X opening, Y
    opening, X rebuttal, Y rebuttal, judge) to its outcome; choiceIdx feeds
    random.choice; gold is the gold answer of the question record. -/
def runMadMcq (gold : String) (oracle : Nat → Except String JVal)
    (choiceIdx : Nat) : Except MadError MadResult :=
  match generateOpening {} none (oracle 0) with
  | Except.error e => Except.error e
  | Except.ok (openingX, dx1) =>
    match choosePositions openingX choiceIdx with
    | Except.error e => Except.error e
    | Except.ok (posXv, posY) =>
      match generateOpening {} (some posY) (oracle 1) with
      | Except.error e => Except.error e
      | Except.ok (openingY, dy1) =>
        match generateRebuttal dx1 (oracle 2) with
        | Except.error e => Except.error e
        | Except.ok rebuttalX =>
          match generateRebuttal dy1 (oracle 3) with
          | Except.error e => Except.error e
          | Except.ok rebuttalY =>
            match makeDecision (oracle 4) with
            | Except.error e => Except.error e
            | Except.ok decision =>
              Except.ok (buildResult gold posXv posY
                ("X chooses freely, Y assigned different position")
                openingX openingY rebuttalX rebuttalY decision (JVal.str ""))

/-- run_mad_irac_mcq (lines 185 to 297): IRAC openings and rebuttals and the
    IRAC judge; the synthesis default is an empty dict. -/
def runMadIracMcq (gold : String) (oracle : Nat → Except String JVal)
    (choiceIdx : Nat) : Except MadError MadResult :=
  match generateOpeningIrac {} none (oracle 0) with
  | Except.error e => Except.error e
  | Except.ok (openingX, dx1) =>
    match choosePositions openingX choiceIdx with
    | Except.error e => Except.error e
    | Except.ok (posXv, posY) =>
      match generateOpeningIrac {} (some posY) (oracle 1) with
      | Except.error e => Except.error e
      | Except.ok (openingY, dy1) =>
        match generateRebuttalIrac dx1 (oracle 2) with
        | Except.error e => Except.error e
        | Except.ok rebuttalX =>
          match generateRebuttalIrac dy1 (oracle 3) with
          | Except.error e => Except.error e
          | Except.ok rebuttalY =>
            match makeDecisionIrac (oracle 4) with
            | Except.error e => Except.error e
            | Except.ok decision =>
              Except.ok (buildResult gold posXv posY
                ("X chooses freely, Y assigned different position (IRAC)")
                openingX openingY rebuttalX rebuttalY decision (JVal.obj []))

/-- run_mad_irac_hybrid_mcq (lines 300 to 417): IRAC openings, vanilla
    rebuttals, hybrid judge consuming the assembled debate history. -/
def runMadIracHybridMcq (gold : String) (oracle : Nat → Except String JVal)
    (choiceIdx : Nat) : Except MadError MadResult :=
  match generateOpeningIrac {} none (oracle 0) with
  | Except.error e => Except.error e
  | Except.ok (openingX, dx1) =>
    match choosePositions openingX choiceIdx with
    | Except.error e => Except.error e
    | Except.ok (posXv, posY) =>
      match generateOpeningIrac {} (some posY) (oracle 1) with
      | Except.error e => Except.error e
      | Except.ok (openingY, dy1) =>
        match generateRebuttal dx1 (oracle 2) with
        | Except.error e => Except.error e
        | Except.ok rebuttalX =>
          match generateRebuttal dy1 (oracle 3) with
          | Except.error e => Except.error e
          | Except.ok rebuttalY =>
            match makeDecisionHybrid
                { openingX := openingX, rebuttalX := rebuttalX,
                  openingY := openingY, rebuttalY := rebuttalY } (oracle 4) with
            | Except.error e => Except.error e
            | Except.ok decision =>
              Except.ok (buildResult gold posXv posY
                ("X chooses freely, Y assigned different position (IRAC Hybrid)")
                openingX openingY rebuttalX rebuttalY decision (JVal.str ""))

/-- Bool-valued observer: a property of the result record that holds
    vacuously on the error outcome. -/
def onOk (P : MadResult → Bool) : Except MadError MadResult → Bool
  | Except.ok r => P r
  | Except.error _ => true

/- ===================== Basic lemmas ===================== -/

theorem jbeq_str_iff (s : String) (w : JVal) :
    jbeq (JVal.str s) w = true ↔ JVal.str s = w := by
  cases w <;> simp [jbeq]

theorem isChoiceLetter_isStr (v : JVal) (h : isChoiceLetter v = true) :
    ∃ s, v = JVal.str s := by
  cases v <;> simp [isChoiceLetter] at h ⊢

theorem isChoiceLetter_truthy (v : JVal) (h : isChoiceLetter v = true) :
    pyTruthy v = true := by
  obtain ⟨s, hs⟩ := isChoiceLetter_isStr v h
  subst hs
  simp only [isChoiceLetter] at h
  rcases of_decide_eq_true h with h | h | h | h <;> subst h <;> decide

theorem pyContains_obj_truthy (v : JVal) (k : String) (hd : isDict v = true)
    (hc : pyContains v k = true) : pyTruthy v = true := by
  cases v <;> simp [isDict] at hd
  rename_i l
  cases l with
  | nil => simp [pyContains] at hc
  | cons a t => simp [pyTruthy, List.isEmpty]

theorem getAvailable_mem_ne (px p : String)
    (hp : p ∈ getAvailablePositionsForDebaterY px) : p ≠ px := by
  unfold getAvailablePositionsForDebaterY at hp
  have := List.of_mem_filter hp
  simpa using this

theorem getAvailable_ne_nil (px : String) :
    getAvailablePositionsForDebaterY px ≠ [] := by
  intro hemp
  by_cases hA : px = "A"
  · have hB : "B" ∈ getAvailablePositionsForDebaterY px := by
      subst hA; unfold getAvailablePositionsForDebaterY; decide
    rw [hemp] at hB
    exact absurd hB (List.not_mem_nil _)
  · have hAm : "A" ∈ getAvailablePositionsForDebaterY px := by
      unfold getAvailablePositionsForDebaterY
      refine List.mem_filter.mpr ⟨by simp, by simpa using Ne.symm hA⟩
    rw [hemp] at hAm
    exact absurd hAm (List.not_mem_nil _)

theorem pyRandomChoice_mem (l : List String) (i : Nat) (h : l ≠ []) :
    pyRandomChoice l i ∈ l := by
  have hl : 0 < l.length := List.length_pos.mpr h
  have hm : i % l.length < l.length := Nat.mod_lt _ hl
  unfold pyRandomChoice
  rw [List.getD_eq_getElem l "" hm]
  exact List.getElem_mem hm

/-- Successful position assignment: the validated X value is the position
    entry of the X opening, it is a choice letter, and the Y assignment is a
    different letter. -/
theorem choosePositions_ok (o : JVal) (i : Nat) (pv : JVal) (py : String)
    (h : choosePositions o i = Except.ok (pv, py)) :
    pv = pyGetN o ("position") ∧ isChoiceLetter pv = true ∧ JVal.str py ≠ pv := by
  simp only [choosePositions] at h
  split at h
  · exact absurd h (by simp)
  · rename_i hcond
    rw [not_or, Bool.not_eq_false, Bool.not_eq_false] at hcond
    obtain ⟨htr, hcl⟩ := hcond
    simp only [Except.ok.injEq, Prod.mk.injEq] at h
    obtain ⟨hpv, hpy⟩ := h
    subst hpv
    refine ⟨rfl, hcl, ?_⟩
    obtain ⟨s, hs⟩ := isChoiceLetter_isStr _ hcl
    rw [hs] at hpy ⊢
    have hmem : py ∈ getAvailablePositionsForDebaterY (jstr (JVal.str s)) := by
      rw [← hpy]
      exact pyRandomChoice_mem _ _ (getAvailable_ne_nil _)
    have hne : py ≠ s := by simpa [jstr] using getAvailable_mem_ne _ _ hmem
    intro hcontra
    exact hne (JVal.str.inj hcontra)

/- ===================== Claim C2 ===================== -/

/-- Claim C2 (confirmed): GroqClient.generate issues at most max_retries
    backend attempts, and when every attempt fails with a rate-limit error
    the call terminates with an error rather than retrying indefinitely. -/
theorem C2_theorem (cfg : RetryConfig) (backend : Nat → GenOutcome) :
    callCount (groqGenerate cfg backend).1 ≤ cfg.maxRetries ∧
    ((∀ k, ∃ m, backend k = GenOutcome.err m ∧ isRateLimitError m = true) →
      ∃ e, (groqGenerate cfg backend).2 = Except.error e) :=
  ⟨groqGenFrom_calls_le cfg backend cfg.maxRetries 0,
   fun h => groqGenFrom_all_rl_err cfg backend h cfg.maxRetries 0⟩

/-- A backend that always reports a rate-limit failure. -/
def alwaysRateLimited : Nat → GenOutcome := fun _ => GenOutcome.err ("rate limit reached")

/-- Witness for C2: with max_retries = 3 and a backend that always reports a
    rate-limit failure, at most 3 attempts are made and the call raises. -/
theorem C2_witness :
    callCount (groqGenerate ⟨3, 2⟩ alwaysRateLimited).1 ≤ 3 ∧
    ∃ e, (groqGenerate ⟨3, 2⟩ alwaysRateLimited).2 = Except.error e :=
  ⟨(C2_theorem ⟨3, 2⟩ alwaysRateLimited).1,
   (C2_theorem ⟨3, 2⟩ alwaysRateLimited).2
     (fun _ => ⟨"rate limit reached", rfl, rfl⟩)⟩

/- ===================== Claim C8 ===================== -/

/-- A backend whose every attempt fails with a 5xx-class server error whose
    text carries no rate-limit marker. -/
def serverErrorBackend : Nat → GenOutcome :=
  fun _ => GenOutcome.err ("Internal Server Error (HTTP 503)")

/-- Counterexample to C8 as stated: a GroqClient.generate attempt failing
    with a 5xx-class signal is NOT retried — with max_retries = 3, the run
    makes exactly one backend call, sleeps never, and propagates the error
    immediately, because GroqClient classifies retriable failures solely by
    rate-limit text in the exception message. -/
theorem C8_counterexample :
    groqGenerate ⟨3, 2⟩ serverErrorBackend =
      ([GenEvent.call 0],
       Except.error (GenErr.backend "Internal Server Error (HTTP 503)")) := rfl

/-- Claim C8 (corrected): in GroqClient.generate only a failure whose text
    carries a rate-limit marker is retried, after a backoff delay of
    retry_delay times 2 to the attempt; any other failure — including
    5xx-class errors — propagates immediately on its first occurrence.  In
    OpenRouterClient.generate, status 429 and 5xx responses are retried with
    the same backoff, other HTTP error statuses propagate immediately, and
    network-level request failures are also retried with backoff. -/
theorem C8_theorem (gcfg : RetryConfig) (gb : Nat → GenOutcome)
    (ocfg : RetryConfig) (ob : Nat → OrOutcome) :
    (∀ m a fuel, gb a = GenOutcome.err m → isRateLimitError m = false →
        groqGenFrom gcfg gb a (fuel + 1) =
          ([GenEvent.call a], Except.error (GenErr.backend m))) ∧
    (∀ m a fuel, gb a = GenOutcome.err m → isRateLimitError m = true →
        a < gcfg.maxRetries - 1 →
        groqGenFrom gcfg gb a (fuel + 1) =
          (GenEvent.call a :: GenEvent.sleep (gcfg.retryDelay * 2 ^ a) ::
             (groqGenFrom gcfg gb (a + 1) fuel).1,
           (groqGenFrom gcfg gb (a + 1) fuel).2)) ∧
    (∀ s msg a fuel, ob a = OrOutcome.resp s msg → s = 429 ∨ 500 ≤ s →
        a < ocfg.maxRetries - 1 →
        orGenFrom ocfg ob a (fuel + 1) =
          (OrEvent.call a :: OrEvent.sleep (ocfg.retryDelay * 2 ^ a) ::
             (orGenFrom ocfg ob (a + 1) fuel).1,
           (orGenFrom ocfg ob (a + 1) fuel).2)) ∧
    (∀ s msg a fuel, ob a = OrOutcome.resp s msg → 400 ≤ s → s < 500 → s ≠ 429 →
        orGenFrom ocfg ob a (fuel + 1) =
          ([OrEvent.call a], Except.error (OrErr.http s))) ∧
    (∀ m a fuel, ob a = OrOutcome.netErr m → a < ocfg.maxRetries - 1 →
        orGenFrom ocfg ob a (fuel + 1) =
          (OrEvent.call a :: OrEvent.sleep (ocfg.retryDelay * 2 ^ a) ::
             (orGenFrom ocfg ob (a + 1) fuel).1,
           (orGenFrom ocfg ob (a + 1) fuel).2)) := by
  refine ⟨?_, ?_, ?_, ?_, ?_⟩
  · intro m a fuel hb hrl
    unfold groqGenFrom
    rw [hb]
    simp [hrl]
  · intro m a fuel hb hrl hlt
    unfold groqGenFrom
    rw [hb]
    simp only [hrl, hlt, if_true]
    cases fuel <;> rfl
  · intro s msg a fuel hb hs hlt
    unfold orGenFrom
    rw [hb]
    simp only [hs, hlt, if_true, if_pos hs]
    cases fuel <;> rfl
  · intro s msg a fuel hb h4 h5 h9
    have hns : ¬(s = 429 ∨ 500 ≤ s) := by omega
    unfold orGenFrom
    rw [hb]
    simp [hns, h4]
  · intro m a fuel hb hlt
    unfold orGenFrom
    rw [hb]
    simp only [hlt, if_true]
    cases fuel <;> rfl

/-- A backend that always fails with a rate-limit error. -/
def rlBackend : Nat → GenOutcome := fun _ => GenOutcome.err ("rate_limit exceeded")

/-- An OpenRouter backend that always delivers HTTP 503. -/
def or503Backend : Nat → OrOutcome := fun _ => OrOutcome.resp 503 JVal.null

/-- An OpenRouter backend that always delivers HTTP 404. -/
def or404Backend : Nat → OrOutcome := fun _ => OrOutcome.resp 404 JVal.null

/-- An OpenRouter backend that always fails at the network level. -/
def orNetBackend : Nat → OrOutcome := fun _ => OrOutcome.netErr ("connection timeout")

/-- Witness for C8 at concrete inputs: an immediate Groq propagation, a Groq
    rate-limit retry with its backoff sleep, an OpenRouter 503 retry, an
    immediate OpenRouter 404 propagation and an OpenRouter network retry. -/
theorem C8_witness :
    (groqGenFrom ⟨3, 2⟩ serverErrorBackend 0 3 =
       ([GenEvent.call 0],
        Except.error (GenErr.backend "Internal Server Error (HTTP 503)"))) ∧
    (groqGenFrom ⟨3, 2⟩ rlBackend 0 3 =
       (GenEvent.call 0 :: GenEvent.sleep (2 * 2 ^ 0) ::
          (groqGenFrom ⟨3, 2⟩ rlBackend 1 2).1,
        (groqGenFrom ⟨3, 2⟩ rlBackend 1 2).2)) ∧
    (orGenFrom ⟨3, 2⟩ or503Backend 0 3 =
       (OrEvent.call 0 :: OrEvent.sleep (2 * 2 ^ 0) ::
          (orGenFrom ⟨3, 2⟩ or503Backend 1 2).1,
        (orGenFrom ⟨3, 2⟩ or503Backend 1 2).2)) ∧
    (orGenFrom ⟨3, 2⟩ or404Backend 0 3 =
       ([OrEvent.call 0], Except.error (OrErr.http 404))) ∧
    (orGenFrom ⟨3, 2⟩ orNetBackend 0 3 =
       (OrEvent.call 0 :: OrEvent.sleep (2 * 2 ^ 0) ::
          (orGenFrom ⟨3, 2⟩ orNetBackend 1 2).1,
        (orGenFrom ⟨3, 2⟩ orNetBackend 1 2).2)) :=
  ⟨(C8_theorem ⟨3, 2⟩ serverErrorBackend ⟨3, 2⟩ or503Backend).1
      ("Internal Server Error (HTTP 503)") 0 2 rfl rfl,
   (C8_theorem ⟨3, 2⟩ rlBackend ⟨3, 2⟩ or503Backend).2.1
      ("rate_limit exceeded") 0 2 rfl rfl (by decide),
   (C8_theorem ⟨3, 2⟩ rlBackend ⟨3, 2⟩ or503Backend).2.2.1
      503 JVal.null 0 2 rfl (Or.inr (by decide)) (by decide),
   (C8_theorem ⟨3, 2⟩ rlBackend ⟨3, 2⟩ or404Backend).2.2.2.1
      404 JVal.null 0 2 rfl (by decide) (by decide) (by decide),
   (C8_theorem ⟨3, 2⟩ rlBackend ⟨3, 2⟩ orNetBackend).2.2.2.2
      ("connection timeout") 0 2 rfl (by decide)⟩

/- ===================== Claim C7 ===================== -/

/-- Claim C7 (confirmed): when the JSON-mode generate run fails with a
    json_validate_failed / 400 signal, generate_json performs exactly one
    further generate run in plain-text mode and delivers its text for
    parsing; whenever the delivered text fails to parse, the result is a
    parse error carrying that raw text; and a returned object is always
    exactly the parse of the delivered text, never a default. -/
theorem C7_theorem (cfg : RetryConfig) (backend : Bool → Nat → GenOutcome)
    (parse : String → Option JVal) :
    (∀ e, (groqGenerate cfg (backend true)).2 = Except.error e →
        isJsonModeFailure (genErrMsg e) = true →
        (groqGenerateJson cfg backend parse).plainEvents =
          (groqGenerate cfg (backend false)).1 ∧
        (groqGenerateJson cfg backend parse).text =
          (groqGenerate cfg (backend false)).2.toOption) ∧
    (∀ t, (groqGenerateJson cfg backend parse).text = some t → parse t = none →
        (groqGenerateJson cfg backend parse).result = Except.error (GjErr.parse t)) ∧
    (∀ v, (groqGenerateJson cfg backend parse).result = Except.ok v →
        ∃ t, (groqGenerateJson cfg backend parse).text = some t ∧ parse t = some v) := by
  refine ⟨?_, ?_, ?_⟩
  · intro e he hjm
    simp only [groqGenerateJson]
    rw [he]
    simp only [hjm, if_true]
    cases h2 : (groqGenerate cfg (backend false)).2 <;> simp [Except.toOption]
  · intro t ht hp
    simp only [groqGenerateJson] at ht ⊢
    generalize (groqGenerate cfg (backend true)).2 = g1 at ht ⊢
    cases g1 with
    | ok t1 =>
      simp at ht
      subst ht
      simp [hp]
    | error e =>
      by_cases hjm : isJsonModeFailure (genErrMsg e) = true
      · simp only [hjm, if_true] at ht ⊢
        generalize (groqGenerate cfg (backend false)).2 = g2 at ht ⊢
        cases g2 with
        | ok t2 =>
          simp at ht
          subst ht
          simp [hp]
        | error e2 => simp at ht
      · simp [hjm] at ht
  · intro v hv
    simp only [groqGenerateJson] at hv ⊢
    generalize (groqGenerate cfg (backend true)).2 = g1 at hv ⊢
    cases g1 with
    | ok t1 =>
      simp only at hv ⊢
      cases hp : parse t1 with
      | some w =>
        simp only [hp] at hv
        simp at hv
        exact ⟨t1, rfl, by rw [hp, hv]⟩
      | none => simp only [hp] at hv; simp at hv
    | error e =>
      by_cases hjm : isJsonModeFailure (genErrMsg e) = true
      · simp only [hjm, if_true] at hv ⊢
        generalize (groqGenerate cfg (backend false)).2 = g2 at hv ⊢
        cases g2 with
        | ok t2 =>
          simp only at hv ⊢
          cases hp : parse t2 with
          | some w =>
            simp only [hp] at hv
            simp at hv
            exact ⟨t2, rfl, by rw [hp, hv]⟩
          | none => simp only [hp] at hv; simp at hv
        | error e2 => simp at hv
      · simp [hjm] at hv

/-- A backend that rejects JSON mode with a json_validate_failed error and
    returns non-JSON text in plain-text mode. -/
def c7backend : Bool → Nat → GenOutcome := fun jsonMode _ =>
  if jsonMode then GenOutcome.err ("json_validate_failed")
  else GenOutcome.ok ("I cannot comply")

/-- Witness for C7: the mock backend fails JSON mode, the single plain-text
    retry returns non-JSON text, and generate_json raises a parse error
    carrying that text. -/
theorem C7_witness :
    (groqGenerateJson ⟨1, 2⟩ c7backend (fun _ => none)).result =
      Except.error (GjErr.parse ("I cannot comply")) :=
  (C7_theorem ⟨1, 2⟩ c7backend (fun _ => none)).2.1 ("I cannot comply") rfl rfl

/- ===================== Claim C3 ===================== -/

/-- Claim C3 (confirmed): every Decision accepted by
    Judge.make_decision_hybrid that declares winner debater_x (resp.
    debater_y) has its decision equal to that debater opening position
    recorded in the debate history; on a mismatch the judge raises instead
    of returning the Decision. -/
theorem C3_theorem (history : DebateHistory) (v : JVal) :
    (∀ r, makeDecisionHybrid history (Except.ok v) = Except.ok r →
      r = v ∧
      (pyGetD r ("winner") (JVal.str "") = JVal.str ("debater_x") →
        pyGetN r ("decision") = pyGetD history.openingX ("position") (JVal.str "")) ∧
      (pyGetD r ("winner") (JVal.str "") = JVal.str ("debater_y") →
        pyGetN r ("decision") = pyGetD history.openingY ("position") (JVal.str ""))) ∧
    (pyGetD v ("winner") (JVal.str "") = JVal.str ("debater_x") →
      pyGetN v ("decision") ≠ pyGetD history.openingX ("position") (JVal.str "") →
      ∃ e, makeDecisionHybrid history (Except.ok v) = Except.error e) ∧
    (pyGetD v ("winner") (JVal.str "") = JVal.str ("debater_y") →
      pyGetN v ("decision") ≠ pyGetD history.openingY ("position") (JVal.str "") →
      ∃ e, makeDecisionHybrid history (Except.ok v) = Except.error e) := by
  refine ⟨?_, ?_, ?_⟩
  · intro r hok
    simp only [makeDecisionHybrid] at hok
    split at hok
    · exact absurd hok (by simp)
    · split at hok
      · exact absurd hok (by simp)
      · split at hok
        · exact absurd hok (by simp)
        · split at hok
          · exact absurd hok (by simp)
          · rename_i hcontains hletter hx hy
            simp only [Except.ok.injEq] at hok
            subst hok
            rw [not_and_or, Bool.not_eq_true, Bool.not_eq_false] at hx hy
            have hlt : isChoiceLetter (pyGetN v ("decision")) = true := by
              revert hletter
              simp
            obtain ⟨s, hs⟩ := isChoiceLetter_isStr _ hlt
            refine ⟨rfl, ?_, ?_⟩
            · intro hw
              rcases hx with hx | hx
              · rw [hw] at hx
                simp [jbeq] at hx
              · rw [hs] at hx ⊢
                exact (jbeq_str_iff _ _).mp hx
            · intro hw
              rcases hy with hy | hy
              · rw [hw] at hy
                simp [jbeq] at hy
              · rw [hs] at hy ⊢
                exact (jbeq_str_iff _ _).mp hy
  · intro hw hne
    simp only [makeDecisionHybrid]
    split
    · exact ⟨_, rfl⟩
    · split
      · exact ⟨_, rfl⟩
      · rename_i hcontains hletter
        have hlt : isChoiceLetter (pyGetN v ("decision")) = true := by
          revert hletter
          simp
        obtain ⟨s, hs⟩ := isChoiceLetter_isStr _ hlt
        have hcond : jbeq (pyGetD v ("winner") (JVal.str "")) (JVal.str ("debater_x")) = true ∧
            jbeq (pyGetN v ("decision"))
              (pyGetD history.openingX ("position") (JVal.str "")) = false := by
          constructor
          · rw [hw]
            exact (jbeq_str_iff _ _).mpr rfl
          · rw [hs]
            rw [hs] at hne
            exact Bool.not_eq_true _ |>.mp (fun hc => hne ((jbeq_str_iff _ _).mp hc))
        rw [if_pos hcond]
        exact ⟨_, rfl⟩
  · intro hw hne
    simp only [makeDecisionHybrid]
    split
    · exact ⟨_, rfl⟩
    · split
      · exact ⟨_, rfl⟩
      · rename_i hcontains hletter
        have hlt : isChoiceLetter (pyGetN v ("decision")) = true := by
          revert hletter
          simp
        obtain ⟨s, hs⟩ := isChoiceLetter_isStr _ hlt
        have hcond2 : jbeq (pyGetD v ("winner") (JVal.str "")) (JVal.str ("debater_y")) = true ∧
            jbeq (pyGetN v ("decision"))
              (pyGetD history.openingY ("position") (JVal.str "")) = false := by
          constructor
          · rw [hw]
            exact (jbeq_str_iff _ _).mpr rfl
          · rw [hs]
            rw [hs] at hne
            exact Bool.not_eq_true _ |>.mp (fun hc => hne ((jbeq_str_iff _ _).mp hc))
        by_cases hxc : jbeq (pyGetD v ("winner") (JVal.str "")) (JVal.str ("debater_x")) = true ∧
            jbeq (pyGetN v ("decision"))
              (pyGetD history.openingX ("position") (JVal.str "")) = false
        · rw [if_pos hxc]
          exact ⟨_, rfl⟩
        · rw [if_neg hxc, if_pos hcond2]
          exact ⟨_, rfl⟩

/-- A history whose X opening defends B and whose Y opening defends C. -/
def c3history : DebateHistory :=
  { openingX := JVal.obj [("position", JVal.str "B")]
    rebuttalX := JVal.obj [("rebuttal", JVal.str "rx")]
    openingY := JVal.obj [("position", JVal.str "C")]
    rebuttalY := JVal.obj [("rebuttal", JVal.str "ry")] }

/-- A consistent hybrid ruling: winner debater_x, decision B. -/
def c3good : JVal :=
  JVal.obj [("decision", JVal.str "B"), ("winner", JVal.str "debater_x")]

/-- An inconsistent hybrid ruling: winner debater_x, decision A. -/
def c3bad : JVal :=
  JVal.obj [("decision", JVal.str "A"), ("winner", JVal.str "debater_x")]

/-- Witness for C3: the consistent ruling is accepted with decision equal to
    the winner opening position, and the inconsistent one raises. -/
theorem C3_witness :
    pyGetN c3good ("decision") = pyGetD c3history.openingX ("position") (JVal.str "") ∧
    (∃ e, makeDecisionHybrid c3history (Except.ok c3bad) = Except.error e) := by
  constructor
  · exact (((C3_theorem c3history c3good).1 c3good rfl).2.1) rfl
  · refine (C3_theorem c3history c3bad).2.1 rfl ?_
    intro h
    exact absurd (JVal.str.inj h) (by decide)

/- ===================== Claim C5 ===================== -/

/-- Claim C5 (confirmed): every Decision accepted by Judge.make_decision or
    Judge.make_decision_irac is the raw response itself and carries a
    decision key whose value is one of the four choice letters; a response
    missing the key or carrying a value outside that set makes both judges
    raise rather than return a defaulted or coerced Decision. -/
theorem C5_theorem (v : JVal) :
    (∀ r, makeDecision (Except.ok v) = Except.ok r →
      r = v ∧ pyContains r ("decision") = true ∧
      isChoiceLetter (pyGetN r ("decision")) = true) ∧
    (∀ r, makeDecisionIrac (Except.ok v) = Except.ok r →
      r = v ∧ pyContains r ("decision") = true ∧
      isChoiceLetter (pyGetN r ("decision")) = true) ∧
    (pyContains v ("decision") = false →
      (∃ e, makeDecision (Except.ok v) = Except.error e) ∧
      (∃ e, makeDecisionIrac (Except.ok v) = Except.error e)) ∧
    (isChoiceLetter (pyGetN v ("decision")) = false →
      (∃ e, makeDecision (Except.ok v) = Except.error e) ∧
      (∃ e, makeDecisionIrac (Except.ok v) = Except.error e)) := by
  refine ⟨?_, ?_, ?_, ?_⟩
  · intro r hok
    simp only [makeDecision] at hok
    split at hok
    · exact absurd hok (by simp)
    · split at hok
      · exact absurd hok (by simp)
      · rename_i hcontains hletter
        simp only [Except.ok.injEq] at hok
        subst hok
        exact ⟨rfl, by simpa using hcontains, by simpa using hletter⟩
  · intro r hok
    simp only [makeDecisionIrac] at hok
    by_cases h1 : pyContains v ("decision") = false
    · rw [if_pos h1] at hok; exact absurd hok (by simp)
    · rw [if_neg h1] at hok
      by_cases h2 : isChoiceLetter (pyGetN v ("decision")) = false
      · rw [if_pos h2] at hok; exact absurd hok (by simp)
      · rw [if_neg h2] at hok
        by_cases h3 : pyContains v ("synthesis") = false
        · rw [if_pos h3] at hok; exact absurd hok (by simp)
        · rw [if_neg h3] at hok
          split at hok
          · exact absurd hok (by simp)
          · simp only [Except.ok.injEq] at hok
            subst hok
            exact ⟨rfl, by simpa using h1, by simpa using h2⟩
  · intro hmiss
    constructor
    · simp only [makeDecision]
      rw [if_pos hmiss]
      exact ⟨_, rfl⟩
    · simp only [makeDecisionIrac]
      rw [if_pos hmiss]
      exact ⟨_, rfl⟩
  · intro hbad
    constructor
    · simp only [makeDecision]
      by_cases h1 : pyContains v ("decision") = false
      · rw [if_pos h1]; exact ⟨_, rfl⟩
      · rw [if_neg h1, if_pos hbad]; exact ⟨_, rfl⟩
    · simp only [makeDecisionIrac]
      by_cases h1 : pyContains v ("decision") = false
      · rw [if_pos h1]; exact ⟨_, rfl⟩
      · rw [if_neg h1, if_pos hbad]; exact ⟨_, rfl⟩

/-- A judge response with a valid decision and a complete IRAC synthesis. -/
def c5good : JVal :=
  JVal.obj [("decision", JVal.str "A"),
            ("synthesis", JVal.obj [("issue", JVal.str "i"), ("rule", JVal.str "r"),
                                    ("application", JVal.str "ap"),
                                    ("conclusion", JVal.str "co")])]

/-- A judge response whose decision is outside the valid choice set. -/
def c5bad : JVal := JVal.obj [("decision", JVal.str "E")]

/-- Witness for C5: the valid response is accepted by both judges with its
    decision in the closed set; the out-of-set response makes both raise. -/
theorem C5_witness :
    isChoiceLetter (pyGetN c5good ("decision")) = true ∧
    (∃ e, makeDecision (Except.ok c5bad) = Except.error e) ∧
    (∃ e, makeDecisionIrac (Except.ok c5bad) = Except.error e) :=
  ⟨((C5_theorem c5good).1 c5good rfl).2.2,
   ((C5_theorem c5bad).2.2.2 rfl).1,
   ((C5_theorem c5bad).2.2.2 rfl).2⟩

/- ===================== Claim C6 ===================== -/

theorem gwvGo_len_le (oracle : Nat → String → Except String JVal)
    (validator : JVal → Bool) (prompt ri em : String) :
    ∀ n k ap le lr,
      (gwvGo oracle validator prompt ri em n k ap le lr).1.length ≤ n := by
  intro n
  induction n with
  | zero => intro k ap le lr; simp [gwvGo]
  | succ m ih =>
    intro k ap le lr
    unfold gwvGo
    cases ho : oracle k ap with
    | error msg =>
      simpa using Nat.succ_le_succ (ih (k + 1) ap (some msg) lr)
    | ok r =>
      by_cases hv : validator r = true
      · simp [hv]
      · simp only [hv, if_false, Bool.false_eq_true]
        simpa using Nat.succ_le_succ (ih (k + 1) (prompt ++ "\n\n" ++ ri) le (some r))

theorem gwvGo_ok_valid (oracle : Nat → String → Except String JVal)
    (validator : JVal → Bool) (prompt ri em : String) :
    ∀ n k ap le lr v,
      (gwvGo oracle validator prompt ri em n k ap le lr).2 = Except.ok v →
      validator v = true := by
  intro n
  induction n with
  | zero =>
    intro k ap le lr v h
    cases le <;> simp [gwvGo] at h
  | succ m ih =>
    intro k ap le lr v h
    unfold gwvGo at h
    cases ho : oracle k ap with
    | error msg =>
      simp only [ho] at h
      exact ih (k + 1) ap (some msg) lr v h
    | ok r =>
      simp only [ho] at h
      by_cases hv : validator r = true
      · rw [if_pos hv] at h
        simp only [Except.ok.injEq] at h
        subst h
        exact hv
      · rw [if_neg hv] at h
        exact ih (k + 1) (prompt ++ "\n\n" ++ ri) le (some r) v h

theorem gwvGo_prompts (oracle : Nat → String → Except String JVal)
    (validator : JVal → Bool) (prompt ri em : String) :
    ∀ n k ap le lr, (ap = prompt ∨ ap = prompt ++ "\n\n" ++ ri) →
      ∀ p ∈ (gwvGo oracle validator prompt ri em n k ap le lr).1,
        p = prompt ∨ p = prompt ++ "\n\n" ++ ri := by
  intro n
  induction n with
  | zero => intro k ap le lr hap p hp; simp [gwvGo] at hp
  | succ m ih =>
    intro k ap le lr hap p hp
    unfold gwvGo at hp
    cases ho : oracle k ap with
    | error msg =>
      simp only [ho, List.mem_cons] at hp
      rcases hp with hp | hp
      · subst hp; exact hap
      · exact ih (k + 1) ap (some msg) lr hap p hp
    | ok r =>
      simp only [ho] at hp
      by_cases hv : validator r = true
      · rw [if_pos hv] at hp
        simp only [List.mem_singleton] at hp
        subst hp; exact hap
      · rw [if_neg hv] at hp
        simp only [List.mem_cons] at hp
        rcases hp with hp | hp
        · subst hp; exact hap
        · exact ih (k + 1) (prompt ++ "\n\n" ++ ri) le (some r) (Or.inr rfl) p hp

theorem gwvGo_head (oracle : Nat → String → Except String JVal)
    (validator : JVal → Bool) (prompt ri em : String) (n k : Nat)
    (ap : String) (le : Option String) (lr : Option JVal) :
    (gwvGo oracle validator prompt ri em (n + 1) k ap le lr).1.head? = some ap := by
  unfold gwvGo
  cases ho : oracle k ap with
  | error msg => simp
  | ok r =>
    by_cases hv : validator r = true
    · simp [hv]
    · simp [hv]

/-- The generate_json outcome of each attempt of a run: the i-th attempt
    (oracle index k + i) is invoked with the i-th prompt of the run. -/
def runOutcomes (oracle : Nat → String → Except String JVal) :
    Nat → List String → List (Except String JVal)
  | _, [] => []
  | k, p :: ps => oracle k p :: runOutcomes oracle (k + 1) ps

/-- The message of the last gateway exception among the outcomes, on top of
    an accumulator holding the exception stored before them (the loop
    variable last_exception of the source). -/
def lastErrAux : Option String → List (Except String JVal) → Option String
  | acc, [] => acc
  | _, Except.error m :: rest => lastErrAux (some m) rest
  | acc, Except.ok _ :: rest => lastErrAux acc rest

/-- The last raw response among the outcomes, on top of an accumulator
    holding the response stored before them (the loop variable
    last_response of the source). -/
def lastRespAux : Option JVal → List (Except String JVal) → Option JVal
  | acc, [] => acc
  | acc, Except.error _ :: rest => lastRespAux acc rest
  | _, Except.ok v :: rest => lastRespAux (some v) rest

/-- Terminal characterization of the loop on runs in which no attempt
    returns an object passing the validator (gateway exceptions and invalid
    responses in any mix): all remaining attempts are made, and the outcome
    is the re-raised last gateway exception when one occurred, otherwise the
    terminal validation error carrying the last raw response. -/
theorem gwvGo_trace (oracle : Nat → String → Except String JVal)
    (validator : JVal → Bool) (prompt ri em : String) :
    ∀ n k ap le lr,
      (∀ o ∈ runOutcomes oracle k
          (gwvGo oracle validator prompt ri em n k ap le lr).1,
        ∀ v, o = Except.ok v → validator v = false) →
      (gwvGo oracle validator prompt ri em n k ap le lr).1.length = n ∧
      (gwvGo oracle validator prompt ri em n k ap le lr).2 =
        (match lastErrAux le (runOutcomes oracle k
            (gwvGo oracle validator prompt ri em n k ap le lr).1) with
         | some m => Except.error (GwvErr.gateway m)
         | none => Except.error (GwvErr.invalid em (lastRespAux lr
             (runOutcomes oracle k
               (gwvGo oracle validator prompt ri em n k ap le lr).1)))) := by
  intro n
  induction n with
  | zero =>
    intro k ap le lr hnp
    cases le <;> simp [gwvGo, runOutcomes, lastErrAux, lastRespAux]
  | succ f ih =>
    intro k ap le lr hnp
    cases ho : oracle k ap with
    | error msg =>
      have hgw : gwvGo oracle validator prompt ri em (f + 1) k ap le lr =
          (ap :: (gwvGo oracle validator prompt ri em f (k + 1) ap (some msg) lr).1,
           (gwvGo oracle validator prompt ri em f (k + 1) ap (some msg) lr).2) := by
        unfold gwvGo
        rw [ho]
        cases f <;> rfl
      rw [hgw] at hnp ⊢
      simp only [runOutcomes] at hnp ⊢
      rw [ho] at hnp ⊢
      simp only [lastErrAux, lastRespAux]
      have htail := fun o hmem => hnp o (List.mem_cons_of_mem _ hmem)
      obtain ⟨hlen, hres⟩ := ih (k + 1) ap (some msg) lr htail
      exact ⟨by simp [hlen], hres⟩
    | ok r =>
      by_cases hv : validator r = true
      · have hgw : gwvGo oracle validator prompt ri em (f + 1) k ap le lr =
            ([ap], Except.ok r) := by
          unfold gwvGo
          rw [ho]
          cases f <;> simp [hv, gwvGo]
        rw [hgw] at hnp
        have hcontra := hnp (oracle k ap) (by simp [runOutcomes]) r ho
        rw [hcontra] at hv
        exact absurd hv (by simp)
      · have hgw : gwvGo oracle validator prompt ri em (f + 1) k ap le lr =
            (ap :: (gwvGo oracle validator prompt ri em f (k + 1)
                (prompt ++ "\n\n" ++ ri) le (some r)).1,
             (gwvGo oracle validator prompt ri em f (k + 1)
                (prompt ++ "\n\n" ++ ri) le (some r)).2) := by
          unfold gwvGo
          rw [ho]
          cases f <;> simp [hv, gwvGo]
        rw [hgw] at hnp ⊢
        simp only [runOutcomes] at hnp ⊢
        rw [ho] at hnp ⊢
        simp only [lastErrAux, lastRespAux]
        have htail := fun o hmem => hnp o (List.mem_cons_of_mem _ hmem)
        obtain ⟨hlen, hres⟩ := ih (k + 1) (prompt ++ "\n\n" ++ ri) le (some r) htail
        exact ⟨by simp [hlen], hres⟩

/-- Successor-prompt rule of the loop: whenever attempts i and i + 1 both
    happen, attempt i + 1 reuses attempt i's prompt unchanged when attempt i
    raised a gateway exception, and uses the original prompt with the
    corrective instruction appended when attempt i returned a response
    (necessarily one failing validation, else the loop would have
    returned). -/
theorem gwvGo_prompt_rule (oracle : Nat → String → Except String JVal)
    (validator : JVal → Bool) (prompt ri em : String) :
    ∀ n k ap le lr i p q,
      (gwvGo oracle validator prompt ri em n k ap le lr).1[i]? = some p →
      (gwvGo oracle validator prompt ri em n k ap le lr).1[i + 1]? = some q →
      (∀ m, oracle (k + i) p = Except.error m → q = p) ∧
      (∀ v, oracle (k + i) p = Except.ok v → q = prompt ++ "\n\n" ++ ri) := by
  intro n
  induction n with
  | zero =>
    intro k ap le lr i p q hp hq
    simp [gwvGo] at hp
  | succ f ih =>
    intro k ap le lr i p q hp hq
    cases ho : oracle k ap with
    | error msg =>
      have hgw : (gwvGo oracle validator prompt ri em (f + 1) k ap le lr).1 =
          ap :: (gwvGo oracle validator prompt ri em f (k + 1) ap (some msg) lr).1 := by
        unfold gwvGo
        rw [ho]
        cases f <;> rfl
      rw [hgw] at hp hq
      cases i with
      | zero =>
        simp only [List.getElem?_cons_zero, Option.some.injEq] at hp
        subst hp
        simp only [List.getElem?_cons_succ] at hq
        constructor
        · intro m2 hm2
          cases f with
          | zero => simp [gwvGo] at hq
          | succ f2 =>
            have hh := gwvGo_head oracle validator prompt ri em f2 (k + 1) ap (some msg) lr
            cases hl : (gwvGo oracle validator prompt ri em (f2 + 1) (k + 1)
                ap (some msg) lr).1 with
            | nil => rw [hl] at hq; simp at hq
            | cons b t =>
              rw [hl] at hq hh
              simp only [List.getElem?_cons_zero, Option.some.injEq] at hq
              simp only [List.head?_cons, Option.some.injEq] at hh
              subst hq
              exact hh
        · intro v hv
          simp only [Nat.add_zero] at hv
          rw [ho] at hv
          exact absurd hv (by simp)
      | succ j =>
        simp only [List.getElem?_cons_succ] at hp hq
        have hk : k + (j + 1) = (k + 1) + j := by omega
        rw [hk]
        exact ih (k + 1) ap (some msg) lr j p q hp hq
    | ok r =>
      by_cases hv : validator r = true
      · have hgw : (gwvGo oracle validator prompt ri em (f + 1) k ap le lr).1 = [ap] := by
          unfold gwvGo
          rw [ho]
          cases f <;> simp [hv, gwvGo]
        rw [hgw] at hq
        cases i <;> simp at hq
      · have hgw : (gwvGo oracle validator prompt ri em (f + 1) k ap le lr).1 =
            ap :: (gwvGo oracle validator prompt ri em f (k + 1)
              (prompt ++ "\n\n" ++ ri) le (some r)).1 := by
          unfold gwvGo
          rw [ho]
          cases f <;> simp [hv, gwvGo]
        rw [hgw] at hp hq
        cases i with
        | zero =>
          simp only [List.getElem?_cons_zero, Option.some.injEq] at hp
          subst hp
          simp only [List.getElem?_cons_succ] at hq
          constructor
          · intro m2 hm2
            simp only [Nat.add_zero] at hm2
            rw [ho] at hm2
            exact absurd hm2 (by simp)
          · intro v hv2
            cases f with
            | zero => simp [gwvGo] at hq
            | succ f2 =>
              have hh := gwvGo_head oracle validator prompt ri em f2 (k + 1)
                (prompt ++ "\n\n" ++ ri) le (some r)
              cases hl : (gwvGo oracle validator prompt ri em (f2 + 1) (k + 1)
                  (prompt ++ "\n\n" ++ ri) le (some r)).1 with
              | nil => rw [hl] at hq; simp at hq
              | cons b t =>
                rw [hl] at hq hh
                simp only [List.getElem?_cons_zero, Option.some.injEq] at hq
                simp only [List.head?_cons, Option.some.injEq] at hh
                subst hq
                exact hh
        | succ j =>
          simp only [List.getElem?_cons_succ] at hp hq
          have hk : k + (j + 1) = (k + 1) + j := by omega
          rw [hk]
          exact ih (k + 1) (prompt ++ "\n\n" ++ ri) le (some r) j p q hp hq

/-- A fully valid OAB opening response accepted by the IRAC validator. -/
def oabGoodResp : JVal :=
  JVal.obj [("irac", JVal.obj [("issue", JVal.str "i"), ("rule", JVal.str "r"),
                               ("application", JVal.str "ap"),
                               ("conclusion", JVal.str "co")]),
            ("full_answer", JVal.str "resposta completa"),
            ("key_citations", JVal.arr [])]

/-- An oracle whose first generate_json attempt raises a gateway exception
    and whose second attempt returns a fully valid response. -/
def c6oracle : Nat → String → Except String JVal
  | 0, _ => Except.error ("gateway unavailable")
  | _, _ => Except.ok oabGoodResp

/-- Counterexample to C6 as stated: a gateway-level failure on attempt one
    is NOT propagated immediately — _generate_with_validation catches the
    exception, retries, obtains a valid response on attempt two and returns
    it, having sent the unmodified prompt twice. -/
theorem C6_counterexample :
    (generateWithValidation c6oracle validIracResponse ("p") ("corrige") ("erro")).2 =
      Except.ok oabGoodResp ∧
    (generateWithValidation c6oracle validIracResponse ("p") ("corrige") ("erro")).1 =
      ["p", "p"] := ⟨rfl, rfl⟩

/-- Claim C6 (corrected): the helper makes at most 3 generation attempts;
    the first uses the original prompt; whenever attempts i and i + 1 both
    happen, attempt i + 1 reuses attempt i's prompt unchanged when attempt i
    raised a gateway exception and uses the original prompt with the
    corrective instruction appended when attempt i returned a response
    failing validation; every prompt sent is the original prompt or the
    original prompt plus the corrective instruction; an object is returned
    only if it passes the validator; and in every run in which no attempt
    returns a valid object — gateway failures and invalid responses in any
    mix — all 3 attempts are made (so gateway failures are retried, not
    propagated immediately) and the helper raises the last gateway exception
    of the run when one occurred, otherwise the terminal error carrying the
    error message and the last raw response. -/
theorem C6_theorem (oracle : Nat → String → Except String JVal)
    (validator : JVal → Bool) (prompt ri em : String) :
    (generateWithValidation oracle validator prompt ri em).1.length ≤ 3 ∧
    (generateWithValidation oracle validator prompt ri em).1.head? = some prompt ∧
    (∀ i p q,
      (generateWithValidation oracle validator prompt ri em).1[i]? = some p →
      (generateWithValidation oracle validator prompt ri em).1[i + 1]? = some q →
      (∀ m, oracle i p = Except.error m → q = p) ∧
      (∀ v, oracle i p = Except.ok v → q = prompt ++ "\n\n" ++ ri)) ∧
    (∀ p ∈ (generateWithValidation oracle validator prompt ri em).1,
        p = prompt ∨ p = prompt ++ "\n\n" ++ ri) ∧
    (∀ v, (generateWithValidation oracle validator prompt ri em).2 = Except.ok v →
        validator v = true) ∧
    ((∀ o ∈ runOutcomes oracle 0 (generateWithValidation oracle validator prompt ri em).1,
        ∀ v, o = Except.ok v → validator v = false) →
      (generateWithValidation oracle validator prompt ri em).1.length = 3 ∧
      (generateWithValidation oracle validator prompt ri em).2 =
        (match lastErrAux none (runOutcomes oracle 0
            (generateWithValidation oracle validator prompt ri em).1) with
         | some m => Except.error (GwvErr.gateway m)
         | none => Except.error (GwvErr.invalid em (lastRespAux none
             (runOutcomes oracle 0
               (generateWithValidation oracle validator prompt ri em).1))))) :=
  ⟨gwvGo_len_le oracle validator prompt ri em 3 0 prompt none none,
   gwvGo_head oracle validator prompt ri em 2 0 prompt none none,
   fun i p q hp hq => by
     have hrule := gwvGo_prompt_rule oracle validator prompt ri em
       3 0 prompt none none i p q hp hq
     simpa using hrule,
   gwvGo_prompts oracle validator prompt ri em 3 0 prompt none none (Or.inl rfl),
   fun v => gwvGo_ok_valid oracle validator prompt ri em 3 0 prompt none none v,
   fun hnp => gwvGo_trace oracle validator prompt ri em 3 0 prompt none none hnp⟩

/-- An oracle that always raises a gateway exception. -/
def c6failOracle : Nat → String → Except String JVal :=
  fun _ _ => Except.error ("boom")

/-- An oracle that always returns an object rejected by the validator. -/
def c6invalidOracle : Nat → String → Except String JVal :=
  fun _ _ => Except.ok (JVal.obj [])

/-- An oracle whose middle attempt raises a gateway exception while the
    first and last attempts return objects rejected by the validator. -/
def c6mixedOracle : Nat → String → Except String JVal
  | 1, _ => Except.error ("halfway boom")
  | _, _ => Except.ok (JVal.obj [])

/-- Witness for C6 at concrete oracles: all-gateway-failure re-raises the
    last gateway error; all-invalid raises the terminal validation error
    carrying the last raw response; the mixed run (invalid, gateway error,
    invalid) re-raises its gateway exception after completing all 3
    attempts; and the mixed run's prompt sequence shows the corrective
    instruction appended after the validation failure and the prompt left
    unchanged after the gateway failure. -/
theorem C6_witness :
    ((generateWithValidation c6failOracle validIracResponse
        ("p") ("corrige") ("erro")).2 =
      Except.error (GwvErr.gateway ("boom"))) ∧
    ((generateWithValidation c6invalidOracle validIracResponse
        ("p") ("corrige") ("erro")).2 =
      Except.error (GwvErr.invalid ("erro") (some (JVal.obj [])))) ∧
    ((generateWithValidation c6mixedOracle validIracResponse
        ("p") ("corrige") ("erro")).2 =
      Except.error (GwvErr.gateway ("halfway boom"))) ∧
    ((generateWithValidation c6mixedOracle validIracResponse
        ("p") ("corrige") ("erro")).1 =
      ["p", "p" ++ "\n\n" ++ "corrige", "p" ++ "\n\n" ++ "corrige"]) := by
  have hfail : runOutcomes c6failOracle 0
      (generateWithValidation c6failOracle validIracResponse
        ("p") ("corrige") ("erro")).1 =
      [Except.error ("boom"), Except.error ("boom"), Except.error ("boom")] := rfl
  have hinv : runOutcomes c6invalidOracle 0
      (generateWithValidation c6invalidOracle validIracResponse
        ("p") ("corrige") ("erro")).1 =
      [Except.ok (JVal.obj []), Except.ok (JVal.obj []), Except.ok (JVal.obj [])] := rfl
  have hmix : runOutcomes c6mixedOracle 0
      (generateWithValidation c6mixedOracle validIracResponse
        ("p") ("corrige") ("erro")).1 =
      [Except.ok (JVal.obj []), Except.error ("halfway boom"),
       Except.ok (JVal.obj [])] := rfl
  refine ⟨?_, ?_, ?_, rfl⟩
  · exact ((C6_theorem c6failOracle validIracResponse ("p") ("corrige") ("erro")).2.2.2.2.2
      (by
        intro o ho v hv
        subst hv
        rw [hfail] at ho
        simp at ho)).2
  · exact ((C6_theorem c6invalidOracle validIracResponse ("p") ("corrige") ("erro")).2.2.2.2.2
      (by
        intro o ho v hv
        subst hv
        rw [hinv] at ho
        simp at ho
        rw [ho]
        rfl)).2
  · exact ((C6_theorem c6mixedOracle validIracResponse ("p") ("corrige") ("erro")).2.2.2.2.2
      (by
        intro o ho v hv
        subst hv
        rw [hmix] at ho
        simp at ho
        rw [ho]
        rfl)).2

/- ===================== Claim C9 ===================== -/

theorem nonBlankStr_true_iff (v : JVal) :
    nonBlankStr v = true ↔ ∃ s, v = JVal.str s ∧ pyStrip s ≠ "" := by
  cases v <;> simp [nonBlankStr]

/-- An MCQ IRAC opening whose four IRAC components are whitespace-only. -/
def blankIracOpening : JVal :=
  JVal.obj [("position", JVal.str "A"),
            ("irac", JVal.obj [("issue", JVal.str " "), ("rule", JVal.str " "),
                               ("application", JVal.str " "),
                               ("conclusion", JVal.str " ")])]

/-- Counterexample to C9 as stated: generate_opening_irac accepts a payload
    whose four IRAC keys are present but bound to whitespace-only strings —
    it checks key presence only, so the blank payload is returned and its
    position stored, although the blank issue value is not a non-blank
    string. -/
theorem C9_counterexample :
    generateOpeningIrac {} none (Except.ok blankIracOpening) =
      Except.ok (blankIracOpening,
        { position := JVal.str "A", openingArgument := blankIracOpening }) ∧
    nonBlankStr (pyGetN (pyGetN blankIracOpening ("irac")) ("issue")) = false :=
  ⟨rfl, rfl⟩

/-- Claim C9 (corrected): the OAB validator _valid_irac_response is strict —
    a payload it accepts binds each of the four IRAC keys to a string that
    is non-empty after stripping, and a payload with a blank or missing
    value for any of them is rejected — while generate_opening_irac checks
    only key presence: a payload it accepts has all four keys in its irac
    entry, a missing key raises, but blank values pass. -/
theorem C9_theorem (resp : JVal) :
    (validIracResponse resp = true →
      ∀ k ∈ iracKeys, ∃ s, pyGetN (pyGetN resp ("irac")) k = JVal.str s ∧
        pyStrip s ≠ "") ∧
    (∀ k ∈ iracKeys, nonBlankStr (pyGetN (pyGetN resp ("irac")) k) = false →
      validIracResponse resp = false) ∧
    (∀ st ap out, generateOpeningIrac st ap (Except.ok resp) = Except.ok out →
      ∀ k ∈ iracKeys, pyContains (pyGetD resp ("irac") (JVal.obj [])) k = true) ∧
    (∀ st ap k, k ∈ iracKeys → pyContains resp ("position") = true →
      pyContains resp ("irac") = true →
      pyContains (pyGetD resp ("irac") (JVal.obj [])) k = false →
      ∃ e, generateOpeningIrac st ap (Except.ok resp) = Except.error e) := by
  refine ⟨?_, ?_, ?_, ?_⟩
  · intro h k hk
    simp only [validIracResponse] at h
    by_cases hd : isDict resp = false
    · rw [if_pos hd] at h; exact absurd h (by simp)
    · rw [if_neg hd] at h
      by_cases hid : isDict (pyGetN resp ("irac")) = false
      · rw [if_pos hid] at h; exact absurd h (by simp)
      · rw [if_neg hid] at h
        by_cases hall : (iracKeys.all
            (fun k => nonBlankStr (pyGetN (pyGetN resp ("irac")) k))) = false
        · rw [if_pos hall] at h; exact absurd h (by simp)
        · have htrue : (iracKeys.all
              (fun k => nonBlankStr (pyGetN (pyGetN resp ("irac")) k))) = true := by
            revert hall; simp
          exact (nonBlankStr_true_iff _).mp (List.all_eq_true.mp htrue k hk)
  · intro k hk hfalse
    simp only [validIracResponse]
    by_cases hd : isDict resp = false
    · rw [if_pos hd]
    · rw [if_neg hd]
      by_cases hid : isDict (pyGetN resp ("irac")) = false
      · rw [if_pos hid]
      · rw [if_neg hid]
        have hall : (iracKeys.all
            (fun k => nonBlankStr (pyGetN (pyGetN resp ("irac")) k))) = false := by
          rw [Bool.eq_false_iff]
          intro hcontra
          have := List.all_eq_true.mp hcontra k hk
          rw [hfalse] at this
          exact absurd this (by simp)
        rw [if_pos hall]
  · intro st ap out hgen k hk
    simp only [generateOpeningIrac] at hgen
    by_cases hkeys : (pyContains resp ("position") = false ∨
        pyContains resp ("irac") = false)
    · rw [if_pos hkeys] at hgen; exact absurd hgen (by simp)
    · rw [if_neg hkeys] at hgen
      cases hf : iracKeys.find?
          (fun k => pyContains (pyGetD resp ("irac") (JVal.obj [])) k = false) with
      | some k2 => rw [hf] at hgen; exact absurd hgen (by simp)
      | none =>
        have := List.find?_eq_none.mp hf k hk
        simpa using this
  · intro st ap k hk hpos hirac hmiss
    simp only [generateOpeningIrac]
    rw [if_neg (by simp [hpos, hirac])]
    cases hf : iracKeys.find?
        (fun k => pyContains (pyGetD resp ("irac") (JVal.obj [])) k = false) with
    | some k2 => exact ⟨_, rfl⟩
    | none =>
      have := List.find?_eq_none.mp hf k hk
      rw [hmiss] at this
      simp at this

/-- An MCQ IRAC opening whose irac entry is missing the rule key. -/
def c9missing : JVal :=
  JVal.obj [("position", JVal.str "A"),
            ("irac", JVal.obj [("issue", JVal.str "x")])]

/-- Witness for C9: the fully valid OAB response passes the validator with a
    non-blank issue, the blank payload is rejected by the validator, and the
    payload missing the rule key makes generate_opening_irac raise. -/
theorem C9_witness :
    (∃ s, pyGetN (pyGetN oabGoodResp ("irac")) ("issue") = JVal.str s ∧
      pyStrip s ≠ "") ∧
    validIracResponse blankIracOpening = false ∧
    (∃ e, generateOpeningIrac {} none (Except.ok c9missing) = Except.error e) :=
  ⟨(C9_theorem oabGoodResp).1 rfl ("issue") (by decide),
   (C9_theorem blankIracOpening).2.1 ("issue") (by decide) rfl,
   (C9_theorem c9missing).2.2.2 {} none ("rule") (by decide) rfl rfl rfl⟩

/- ===================== Claim C10 ===================== -/

/-- Claim C10 (confirmed): Debater.generate_opening accepts any dict
    response carrying position and argument keys, storing the response
    position value as the frozen position — regardless of the assigned
    position parameter and of whether the value lies in the choice set —
    and run_mad_mcq range-checks only the free-choosing Debater X, so a Y
    response with an arbitrary position value yields a completed transcript
    recording that value unchanged. -/
theorem C10_theorem (st : DebaterState) (assigned : Option String) (resp : JVal)
    (hd : isDict resp = true)
    (hpos : pyContains resp ("position") = true)
    (harg : pyContains resp ("argument") = true) :
    generateOpening st assigned (Except.ok resp) =
      Except.ok (resp, { position := pyGetN resp ("position"),
                         openingArgument := resp }) ∧
    ∀ gold oracle choiceIdx rx r2 r3 r5,
      oracle 0 = Except.ok rx → isDict rx = true →
      pyContains rx ("position") = true → pyContains rx ("argument") = true →
      isChoiceLetter (pyGetN rx ("position")) = true →
      oracle 1 = Except.ok resp →
      oracle 2 = Except.ok r2 → pyContains r2 ("rebuttal") = true →
      oracle 3 = Except.ok r3 → pyContains r3 ("rebuttal") = true →
      oracle 4 = Except.ok r5 → pyContains r5 ("decision") = true →
      isChoiceLetter (pyGetN r5 ("decision")) = true →
      ∃ res, runMadMcq gold oracle choiceIdx = Except.ok res ∧
        res.openingY = resp ∧
        pyGetN res.openingY ("position") = pyGetN resp ("position") := by
  constructor
  · simp only [generateOpening]
    rw [if_neg (by simp [hpos, harg])]
  · intro gold oracle choiceIdx rx r2 r3 r5 h0 hdx hpx hax hlx h1 h2 hr2 h3 hr3 h4 hd5 hl5
    have hgenx : generateOpening {} none (oracle 0) =
        Except.ok (rx, { position := pyGetN rx ("position"), openingArgument := rx }) := by
      rw [h0]
      simp only [generateOpening]
      rw [if_neg (by simp [hpx, hax])]
    have hchoose : choosePositions rx choiceIdx =
        Except.ok (pyGetN rx ("position"),
          pyRandomChoice
            (getAvailablePositionsForDebaterY (jstr (pyGetN rx ("position"))))
            choiceIdx) := by
      simp only [choosePositions]
      rw [if_neg (by simp [hlx, isChoiceLetter_truthy _ hlx])]
    have hgeny : generateOpening {}
        (some (pyRandomChoice
          (getAvailablePositionsForDebaterY (jstr (pyGetN rx ("position"))))
          choiceIdx)) (oracle 1) =
        Except.ok (resp, { position := pyGetN resp ("position"),
                           openingArgument := resp }) := by
      rw [h1]
      simp only [generateOpening]
      rw [if_neg (by simp [hpos, harg])]
    have hrebx : generateRebuttal
        { position := pyGetN rx ("position"), openingArgument := rx }
        (oracle 2) = Except.ok r2 := by
      simp only [generateRebuttal]
      rw [if_neg (by simp [pyContains_obj_truthy rx ("position") hdx hpx]), h2]
      simp [hr2]
    have hreby : generateRebuttal
        { position := pyGetN resp ("position"), openingArgument := resp }
        (oracle 3) = Except.ok r3 := by
      simp only [generateRebuttal]
      rw [if_neg (by simp [pyContains_obj_truthy resp ("position") hd hpos]), h3]
      simp [hr3]
    have hdec : makeDecision (oracle 4) = Except.ok r5 := by
      rw [h4]
      simp only [makeDecision]
      rw [if_neg (by simp [hd5]), if_neg (by simp [hl5])]
    unfold runMadMcq
    rw [hgenx]
    dsimp only
    rw [hchoose]
    dsimp only
    rw [hgeny]
    dsimp only
    rw [hrebx]
    dsimp only
    rw [hreby]
    dsimp only
    rw [hdec]
    dsimp only
    exact ⟨_, rfl, rfl, rfl⟩

/-- A Debater Y response parroting position A with an argument. -/
def c10yResp : JVal :=
  JVal.obj [("position", JVal.str "Z"), ("argument", JVal.str "arg y")]

/-- A Debater X response choosing position C with an argument. -/
def c10xResp : JVal :=
  JVal.obj [("position", JVal.str "C"), ("argument", JVal.str "arg x")]

/-- A rebuttal response. -/
def c10rebuttal : JVal := JVal.obj [("rebuttal", JVal.str "reb")]

/-- A judge response deciding C. -/
def c10decision : JVal := JVal.obj [("decision", JVal.str "C")]

/-- The oracle of a debate where Y reports the out-of-set position Z. -/
def c10oracle : Nat → Except String JVal
  | 0 => Except.ok c10xResp
  | 1 => Except.ok c10yResp
  | 2 => Except.ok c10rebuttal
  | 3 => Except.ok c10rebuttal
  | _ => Except.ok c10decision

/-- Witness for C10: generate_opening stores the out-of-set position Z of
    the assigned debater, and the full debate completes with that value
    recorded unchanged in the transcript. -/
theorem C10_witness :
    generateOpening {} (some ("B")) (Except.ok c10yResp) =
      Except.ok (c10yResp, { position := pyGetN c10yResp ("position"),
                             openingArgument := c10yResp }) ∧
    ∃ res, runMadMcq ("C") c10oracle 0 = Except.ok res ∧
      res.openingY = c10yResp ∧
      pyGetN res.openingY ("position") = pyGetN c10yResp ("position") :=
  ⟨(C10_theorem {} (some ("B")) c10yResp rfl rfl rfl).1,
   (C10_theorem {} (some ("B")) c10yResp rfl rfl rfl).2
     ("C") c10oracle 0 c10xResp c10rebuttal c10rebuttal c10decision
     rfl rfl rfl rfl rfl rfl rfl rfl rfl rfl rfl rfl rfl⟩

/- ===================== Claim C1 ===================== -/

/-- An opening response defending A. -/
def c1opening : JVal :=
  JVal.obj [("position", JVal.str "A"), ("argument", JVal.str "a")]

/-- A rebuttal response. -/
def c1rebuttal : JVal := JVal.obj [("rebuttal", JVal.str "reb")]

/-- A judge response deciding A. -/
def c1decision : JVal := JVal.obj [("decision", JVal.str "A")]

/-- The oracle of a debate where debater Y, although assigned a position
    different from A, returns an opening that also records position A. -/
def c1oracle : Nat → Except String JVal
  | 0 => Except.ok c1opening
  | 1 => Except.ok c1opening
  | 2 => Except.ok c1rebuttal
  | 3 => Except.ok c1rebuttal
  | _ => Except.ok c1decision

/-- Counterexample to C1 as stated: run_mad_mcq successfully produces a
    transcript in which the position recorded in debater X opening equals
    the position recorded in debater Y opening — Y was assigned a different
    letter, but the position value inside its response is stored without
    validation. -/
theorem C1_counterexample :
    ∃ r, runMadMcq ("A") c1oracle 0 = Except.ok r ∧
      pyGetN r.openingX ("position") = pyGetN r.openingY ("position") :=
  ⟨_, rfl, rfl⟩

/-- Distinctness of the assignment metadata: the Y assignment letter differs
    from the validated X position value. -/
def posDistinct (r : MadResult) : Bool := !jbeq (JVal.str r.posAssignY) r.posAssignX

/-- Claim C1 (corrected): in every transcript successfully produced by
    run_mad_mcq or its IRAC and hybrid variants, debater Y ASSIGNED position
    (recorded in the position_assignment metadata) differs from debater X
    validated position; the position value recorded inside Y opening
    response is not validated and may coincide with X (see the
    counterexample). -/
theorem C1_theorem (gold : String) (oracle : Nat → Except String JVal)
    (choiceIdx : Nat) :
    onOk posDistinct (runMadMcq gold oracle choiceIdx) = true ∧
    onOk posDistinct (runMadIracMcq gold oracle choiceIdx) = true ∧
    onOk posDistinct (runMadIracHybridMcq gold oracle choiceIdx) = true := by
  refine ⟨?_, ?_, ?_⟩
  · unfold runMadMcq
    cases h0 : generateOpening {} none (oracle 0) with
    | error e => rfl
    | ok p =>
      obtain ⟨openingX, dx1⟩ := p
      dsimp only
      cases hc : choosePositions openingX choiceIdx with
      | error e => rfl
      | ok q =>
        obtain ⟨posXv, posY⟩ := q
        dsimp only
        cases h1 : generateOpening {} (some posY) (oracle 1) with
        | error e => rfl
        | ok p2 =>
          obtain ⟨openingY, dy1⟩ := p2
          dsimp only
          cases h2 : generateRebuttal dx1 (oracle 2) with
          | error e => rfl
          | ok rebX =>
            dsimp only
            cases h3 : generateRebuttal dy1 (oracle 3) with
            | error e => rfl
            | ok rebY =>
              dsimp only
              cases h4 : makeDecision (oracle 4) with
              | error e => rfl
              | ok dec =>
                dsimp only
                obtain ⟨hpv, hcl, hne⟩ :=
                  choosePositions_ok openingX choiceIdx posXv posY hc
                obtain ⟨s, hs⟩ := isChoiceLetter_isStr _ hcl
                simp only [onOk, posDistinct, buildResult]
                rw [hs] at hne ⊢
                simp only [jbeq, Bool.not_eq_eq_eq_not, Bool.not_true,
                  decide_eq_false_iff_not]
                exact fun h => hne (by rw [h])
  · unfold runMadIracMcq
    cases h0 : generateOpeningIrac {} none (oracle 0) with
    | error e => rfl
    | ok p =>
      obtain ⟨openingX, dx1⟩ := p
      dsimp only
      cases hc : choosePositions openingX choiceIdx with
      | error e => rfl
      | ok q =>
        obtain ⟨posXv, posY⟩ := q
        dsimp only
        cases h1 : generateOpeningIrac {} (some posY) (oracle 1) with
        | error e => rfl
        | ok p2 =>
          obtain ⟨openingY, dy1⟩ := p2
          dsimp only
          cases h2 : generateRebuttalIrac dx1 (oracle 2) with
          | error e => rfl
          | ok rebX =>
            dsimp only
            cases h3 : generateRebuttalIrac dy1 (oracle 3) with
            | error e => rfl
            | ok rebY =>
              dsimp only
              cases h4 : makeDecisionIrac (oracle 4) with
              | error e => rfl
              | ok dec =>
                dsimp only
                obtain ⟨hpv, hcl, hne⟩ :=
                  choosePositions_ok openingX choiceIdx posXv posY hc
                obtain ⟨s, hs⟩ := isChoiceLetter_isStr _ hcl
                simp only [onOk, posDistinct, buildResult]
                rw [hs] at hne ⊢
                simp only [jbeq, Bool.not_eq_eq_eq_not, Bool.not_true,
                  decide_eq_false_iff_not]
                exact fun h => hne (by rw [h])
  · unfold runMadIracHybridMcq
    cases h0 : generateOpeningIrac {} none (oracle 0) with
    | error e => rfl
    | ok p =>
      obtain ⟨openingX, dx1⟩ := p
      dsimp only
      cases hc : choosePositions openingX choiceIdx with
      | error e => rfl
      | ok q =>
        obtain ⟨posXv, posY⟩ := q
        dsimp only
        cases h1 : generateOpeningIrac {} (some posY) (oracle 1) with
        | error e => rfl
        | ok p2 =>
          obtain ⟨openingY, dy1⟩ := p2
          dsimp only
          cases h2 : generateRebuttal dx1 (oracle 2) with
          | error e => rfl
          | ok rebX =>
            dsimp only
            cases h3 : generateRebuttal dy1 (oracle 3) with
            | error e => rfl
            | ok rebY =>
              dsimp only
              cases h4 : makeDecisionHybrid
                  { openingX := openingX, rebuttalX := rebX,
                    openingY := openingY, rebuttalY := rebY } (oracle 4) with
              | error e => rfl
              | ok dec =>
                dsimp only
                obtain ⟨hpv, hcl, hne⟩ :=
                  choosePositions_ok openingX choiceIdx posXv posY hc
                obtain ⟨s, hs⟩ := isChoiceLetter_isStr _ hcl
                simp only [onOk, posDistinct, buildResult]
                rw [hs] at hne ⊢
                simp only [jbeq, Bool.not_eq_eq_eq_not, Bool.not_true,
                  decide_eq_false_iff_not]
                exact fun h => hne (by rw [h])

/- ===================== Claim C4 ===================== -/

/-- Claim C4 (confirmed): in run_mad_mcq the free-choosing debater X
    position is validated against the closed choice set before the
    transcript proceeds — a response whose position lies outside the set
    aborts the run with an error, and every successful transcript records
    for X exactly the returned position value, which is a choice letter,
    never a corrected one. -/
theorem C4_theorem (gold : String) (oracle : Nat → Except String JVal)
    (choiceIdx : Nat) :
    (∀ r0, oracle 0 = Except.ok r0 →
       isChoiceLetter (pyGetN r0 ("position")) = false →
       ∃ e, runMadMcq gold oracle choiceIdx = Except.error e) ∧
    onOk (fun r => isChoiceLetter (pyGetN r.openingX ("position")) &&
                   jbeq r.posAssignX (pyGetN r.openingX ("position")))
      (runMadMcq gold oracle choiceIdx) = true := by
  constructor
  · intro r0 h0 hbad
    unfold runMadMcq
    cases hg : generateOpening {} none (oracle 0) with
    | error e => exact ⟨e, rfl⟩
    | ok p =>
      obtain ⟨oX, d1⟩ := p
      dsimp only
      rw [h0] at hg
      simp only [generateOpening] at hg
      by_cases hky : (pyContains r0 ("position") = false ∨
          pyContains r0 ("argument") = false)
      · rw [if_pos hky] at hg
        exact absurd hg (by simp)
      · rw [if_neg hky] at hg
        simp only [Except.ok.injEq, Prod.mk.injEq] at hg
        obtain ⟨hoX, hd1⟩ := hg
        subst hoX
        have hcf : choosePositions r0 choiceIdx =
            Except.error (MadError.invalidPositionX (pyGetN r0 ("position"))) := by
          simp only [choosePositions]
          rw [if_pos (Or.inr hbad)]
        rw [hcf]
        exact ⟨_, rfl⟩
  · unfold runMadMcq
    cases h0 : generateOpening {} none (oracle 0) with
    | error e => rfl
    | ok p =>
      obtain ⟨openingX, dx1⟩ := p
      dsimp only
      cases hc : choosePositions openingX choiceIdx with
      | error e => rfl
      | ok q =>
        obtain ⟨posXv, posY⟩ := q
        dsimp only
        cases h1 : generateOpening {} (some posY) (oracle 1) with
        | error e => rfl
        | ok p2 =>
          obtain ⟨openingY, dy1⟩ := p2
          dsimp only
          cases h2 : generateRebuttal dx1 (oracle 2) with
          | error e => rfl
          | ok rebX =>
            dsimp only
            cases h3 : generateRebuttal dy1 (oracle 3) with
            | error e => rfl
            | ok rebY =>
              dsimp only
              cases h4 : makeDecision (oracle 4) with
              | error e => rfl
              | ok dec =>
                dsimp only
                obtain ⟨hpv, hcl, hne⟩ :=
                  choosePositions_ok openingX choiceIdx posXv posY hc
                obtain ⟨s, hs⟩ := isChoiceLetter_isStr _ hcl
                simp only [onOk, buildResult]
                rw [← hpv, hcl, hs]
                simp [jbeq]

/-- An oracle whose Debater X opening reports the out-of-set position E. -/
def c4oracle : Nat → Except String JVal := fun _ =>
  Except.ok (JVal.obj [("position", JVal.str "E"), ("argument", JVal.str "a")])

/-- Witness for C4: the spec scenario — a free-choice opening whose position
    is the invalid letter E aborts the debate with an error. -/
theorem C4_witness : ∃ e, runMadMcq ("A") c4oracle 0 = Except.error e :=
  (C4_theorem ("A") c4oracle 0).1 _ rfl rfl

end LegalMAD
